import Mathlib

/-!
Verification development for the co-penny query pipeline.

This file shallowly embeds the parts of the repository that the checked
properties are about:

* a JSON value model (Python dicts produced by `json.loads`, Python
  truthiness, `dict.get`),
* `agents/parsing_agent.py` (`ParsingAgent.parse_query`, `_fallback_parse`),
* `agents/strategy_agent.py` (`StrategyAgent.generate_strategy`),
* `agents/risk_agent.py` (`RiskAgent.assess_risk`),
* `agents/output_agent.py` (`OutputAgent.format_response`,
  `format_simple_response`),
* `llm/llm_client.py` (`LLMClient.complete`, provider "free"),
* `app/tools/enhanced_csv_tools.py` (the in-process pandas branch of the
  aggregate accessors) and `app/tools/csv_tools.py` (`top_merchants`),
* `vectordb/orchestrator.py` (`EnhancedOrchestrator.chat` and
  `_process_with_vectordb_workflow`).

Machine floats are modelled as rationals; external services (the hosted
LLM HTTP endpoint, the vector knowledge store, the document database) are
modelled as oracles supplied by an environment record, exactly at the
call boundaries the source code uses.
-/

/-- Exact rationals in lowest terms with positive denominator.  Mathlib's
`ℚ` arithmetic normalizes through definitions the kernel cannot evaluate,
which would make every concrete computation below unprovable by `rfl` or
`decide`; this type's operations reduce in the kernel.  Values built by
the constructors below are normalized, so structural equality is value
equality. -/
structure MQ where
  n : ℤ
  d : ℕ
deriving DecidableEq, Repr

/-- Normalize a numerator over a positive denominator (a 0 denominator,
which no embedded computation produces, maps to 0). -/
def mqNorm (n : ℤ) (d : ℕ) : MQ :=
  if d = 0 then ⟨0, 1⟩
  else
    let g := Nat.gcd n.natAbs d
    ⟨n / (g : ℤ), d / g⟩

/-- Rational from an integer fraction (sign moved to the numerator). -/
def mqOfFrac (n d : ℤ) : MQ :=
  if d < 0 then mqNorm (-n) (-d).toNat else mqNorm n d.toNat

/-- Rational from an integer. -/
def MQ.ofInt (n : ℤ) : MQ := ⟨n, 1⟩

/-- Rational from a natural number. -/
def MQ.ofN (k : ℕ) : MQ := ⟨(k : ℤ), 1⟩

instance (k : ℕ) : OfNat MQ k := ⟨⟨(k : ℤ), 1⟩⟩

instance : Add MQ := ⟨fun a b => mqNorm (a.n * b.d + b.n * a.d) (a.d * b.d)⟩

instance : Mul MQ := ⟨fun a b => mqNorm (a.n * b.n) (a.d * b.d)⟩

instance : Neg MQ := ⟨fun a => ⟨-a.n, a.d⟩⟩

instance : Sub MQ := ⟨fun a b => a + -b⟩

instance : Div MQ := ⟨fun a b => mqOfFrac (a.n * b.d) ((a.d : ℤ) * b.n)⟩

instance : LE MQ := ⟨fun a b => a.n * (b.d : ℤ) ≤ b.n * (a.d : ℤ)⟩

instance : LT MQ := ⟨fun a b => a.n * (b.d : ℤ) < b.n * (a.d : ℤ)⟩

instance (a b : MQ) : Decidable (a ≤ b) :=
  inferInstanceAs (Decidable (a.n * (b.d : ℤ) ≤ b.n * (a.d : ℤ)))

instance (a b : MQ) : Decidable (a < b) :=
  inferInstanceAs (Decidable (a.n * (b.d : ℤ) < b.n * (a.d : ℤ)))

instance : Min MQ := ⟨fun a b => if a ≤ b then a else b⟩

/-- Sum of a list of rationals (pandas sums left to right from 0). -/
def mqSum (l : List MQ) : MQ := l.foldl (· + ·) 0

/-- Floor of a rational. -/
def mqFloor (q : MQ) : ℤ := Int.fdiv q.n (q.d : ℤ)

/-- Python `str.lower()` (ASCII, which is all this pipeline compares). -/
def pyLower (s : String) : String := String.mk (s.toList.map Char.toLower)

/-- Python `str.strip()`. -/
def pyStrip (s : String) : String :=
  String.mk
    (((s.toList.dropWhile Char.isWhitespace).reverse.dropWhile
        Char.isWhitespace).reverse)

/-- Whitespace word splitting (Python `str.split()` drops empty words). -/
def splitWsAux : List Char → List Char → List String
  | acc, [] => if acc.isEmpty then [] else [String.mk acc.reverse]
  | acc, c :: rest =>
      if c.isWhitespace then
        if acc.isEmpty then splitWsAux [] rest
        else String.mk acc.reverse :: splitWsAux [] rest
      else splitWsAux (c :: acc) rest

/-- Python `str.split()`. -/
def pyWords (s : String) : List String := splitWsAux [] s.toList

/-- Split at every occurrence of a separator character, keeping empty
pieces (Python `str.split(sep)`). -/
def splitOnCharAux (sep : Char) : List Char → List Char → List String
  | acc, [] => [String.mk acc.reverse]
  | acc, c :: rest =>
      if c = sep then String.mk acc.reverse :: splitOnCharAux sep [] rest
      else splitOnCharAux sep (c :: acc) rest

/-- Python `s.split(sep)` for a one-character separator. -/
def splitOnChar (sep : Char) (s : String) : List String :=
  splitOnCharAux sep [] s.toList

/-- Python `s.startswith(p)`. -/
def startsWithL (s p : String) : Bool := p.toList.isPrefixOf s.toList

/-- Python `s.endswith(p)`. -/
def endsWithL (s p : String) : Bool := p.toList.isSuffixOf s.toList

/-- Lexicographic character-code comparison of strings (Python `<=`;
the core `String` order does not reduce in the kernel). -/
def charListLe : List Char → List Char → Bool
  | [], _ => true
  | _ :: _, [] => false
  | a :: as, b :: bs =>
      if a < b then true else if b < a then false else charListLe as bs

/-- Boolean string "less or equal". -/
def strLeB (a b : String) : Bool := charListLe a.toList b.toList

/-- Python `s[:n]` (prefix of at most `n` characters; kernel-friendly,
unlike `String.take`, which recurses on `n`). -/
def takeChars (n : Nat) (s : String) : String := String.mk (s.toList.take n)

/-- A JSON value, as produced by Python's `json.loads`.  Numbers are
modelled as exact rationals. -/
inductive JValue where
  | null : JValue
  | bool (b : Bool) : JValue
  | num (q : MQ) : JValue
  | str (s : String) : JValue
  | arr (xs : List JValue) : JValue
  | obj (fields : List (String × JValue)) : JValue

/-- Python truthiness (`bool(x)`) of a parsed-JSON value: `None`, `False`,
`0`, `""`, `[]` and `{}` are falsy, everything else truthy. -/
def JValue.truthy : JValue → Bool
  | .null => false
  | .bool b => b
  | .num q => if q = 0 then false else true
  | .str s => if s = "" then false else true
  | .arr xs => !xs.isEmpty
  | .obj fs => !fs.isEmpty

/-- Python `dict.get(key)` on a parsed-JSON value: `none` when the value
is not a dict or the key is absent.  (Parsed dicts never hold duplicate
keys: `json.loads` keeps the last occurrence, and the embedded parser
below does the same.) -/
def JValue.get : JValue → String → Option JValue
  | .obj fs, k => fs.lookup k
  | _, _ => none

/-- Python `dict.get(key, default)`. -/
def JValue.getD (j : JValue) (k : String) (d : JValue) : JValue :=
  (j.get k).getD d

/-- `dict.get(key) or default` — Python `or` keeps the first operand only
when it is truthy (so a present-but-falsy value still yields the default). -/
def JValue.getOr (j : JValue) (k : String) (d : JValue) : JValue :=
  match j.get k with
  | some v => if v.truthy then v else d
  | none => d

/-- Rendering of a rational the way Python prints a JSON number
(integers without a decimal point).  The exact text is never relied on by
any theorem; it only feeds prompt/answer strings. -/
def numRepr (q : MQ) : String :=
  if q.d = 1 then toString q.n else toString q.n ++ "/" ++ toString q.d

/-- Python `str(x)` of a parsed-JSON value, fuel-bounded on nesting depth.
Container rendering approximates `repr`; no theorem depends on its text. -/
def pyStrF : Nat → JValue → String
  | _, .null => "None"
  | _, .bool b => if b then "True" else "False"
  | _, .num q => numRepr q
  | _, .str s => s
  | 0, .arr _ => "[...]"
  | 0, .obj _ => "\x7b...\x7d"
  | n + 1, .arr xs =>
      "[" ++ String.intercalate ", " (xs.map (pyStrF n)) ++ "]"
  | n + 1, .obj fs =>
      "\x7b" ++
        String.intercalate ", "
          (fs.map (fun p => p.1 ++ ": " ++ pyStrF n p.2)) ++
      "\x7d"

/-- Python `str(x)` (depth capped well above anything this pipeline builds). -/
def pyStr (j : JValue) : String := pyStrF 100 j

/-- Whitespace skipping for the JSON reader. -/
def skipWs : List Char → List Char
  | c :: cs =>
      if c = ' ' ∨ c = '\n' ∨ c = '\t' ∨ c = '\r' then skipWs cs else c :: cs
  | [] => []

/-- Read a JSON string body after the opening quote, handling the simple
escape sequences (`\"`, `\\`, `\/`, `\n`, `\t`, `\r`); other escapes are
rejected. Returns the string and the remaining input. -/
def readStrBody : List Char → Option (String × List Char)
  | [] => none
  | c :: cs =>
      if c = '"' then some ("", cs)
      else if c = '\\' then
        match cs with
        | [] => none
        | e :: cs2 =>
            let dec : Option Char :=
              if e = '"' then some '"'
              else if e = '\\' then some '\\'
              else if e = '/' then some '/'
              else if e = 'n' then some '\n'
              else if e = 't' then some '\t'
              else if e = 'r' then some '\r'
              else none
            match dec with
            | some d =>
                (readStrBody cs2).map (fun p => (String.singleton d ++ p.1, p.2))
            | none => none
      else
        (readStrBody cs).map (fun p => (String.singleton c ++ p.1, p.2))

/-- Digits prefix of the input, as a numeral and the remaining input. -/
def readDigits : List Char → Option (Nat × List Char)
  | cs =>
      let ds := cs.takeWhile (fun c => c.isDigit)
      let rest := cs.dropWhile (fun c => c.isDigit)
      if ds.isEmpty then none
      else some (ds.foldl (fun a c => a * 10 + (c.toNat - 48)) 0, rest)

/-- Read a JSON number (optional minus, digits, optional fraction;
exponent notation is not produced by this pipeline and is rejected). -/
def readNumber (cs : List Char) : Option (MQ × List Char) :=
  let signed := cs.head? = some '-'
  let cs1 := if signed then cs.tail else cs
  match readDigits cs1 with
  | none => none
  | some (ip, rest) =>
      let withFrac : Option (MQ × List Char) :=
        match rest with
        | '.' :: cs2 =>
            match readDigits cs2 with
            | none => none
            | some (fp, rest2) =>
                let digits := (cs2.takeWhile (fun c => c.isDigit)).length
                some (mqOfFrac ((ip : ℤ) * (10 : ℤ) ^ digits + (fp : ℤ))
                  ((10 : ℤ) ^ digits), rest2)
        | _ => some (MQ.ofInt (ip : ℤ), rest)
      match withFrac with
      | none => none
      | some (q, rest2) => some ((if signed then -q else q), rest2)

/-- `True`/`False`/`null` literals. -/
def readWord (w : String) (cs : List Char) : Option (List Char) :=
  if w.toList.isPrefixOf cs then some (cs.drop w.length) else none

mutual

/-- Fuel-bounded recursive-descent JSON value reader (the embedding of
`json.loads`). -/
def readVal : Nat → List Char → Option (JValue × List Char)
  | 0, _ => none
  | n + 1, cs =>
      match skipWs cs with
      | [] => none
      | c :: rest =>
          if c = '"' then
            (readStrBody rest).map (fun p => (JValue.str p.1, p.2))
          else if c = '\x7b' then
            match skipWs rest with
            | '\x7d' :: rest2 => some (JValue.obj [], rest2)
            | rest2 =>
                (readMembers n rest2 []).map
                  (fun p => (JValue.obj p.1, p.2))
          else if c = '[' then
            match skipWs rest with
            | ']' :: rest2 => some (JValue.arr [], rest2)
            | rest2 =>
                (readItems n rest2 []).map
                  (fun p => (JValue.arr p.1, p.2))
          else
            match readWord "true" (c :: rest) with
            | some r => some (JValue.bool true, r)
            | none =>
                match readWord "false" (c :: rest) with
                | some r => some (JValue.bool false, r)
                | none =>
                    match readWord "null" (c :: rest) with
                    | some r => some (JValue.null, r)
                    | none =>
                        (readNumber (c :: rest)).map
                          (fun p => (JValue.num p.1, p.2))

/-- Members of a JSON object (after the opening brace; at least one pair).
A repeated key overwrites the earlier one, as `json.loads` does. -/
def readMembers : Nat → List Char → List (String × JValue) →
    Option (List (String × JValue) × List Char)
  | 0, _, _ => none
  | n + 1, cs, acc =>
      match skipWs cs with
      | '"' :: rest =>
          match readStrBody rest with
          | none => none
          | some (k, rest2) =>
              match skipWs rest2 with
              | ':' :: rest3 =>
                  match readVal n rest3 with
                  | none => none
                  | some (v, rest4) =>
                      let acc2 := (acc.filter (fun p => p.1 ≠ k)) ++ [(k, v)]
                      match skipWs rest4 with
                      | ',' :: rest5 => readMembers n rest5 acc2
                      | '\x7d' :: rest5 => some (acc2, rest5)
                      | _ => none
              | _ => none
      | _ => none

/-- Items of a JSON array (after the opening bracket; at least one item). -/
def readItems : Nat → List Char → List JValue →
    Option (List JValue × List Char)
  | 0, _, _ => none
  | n + 1, cs, acc =>
      match readVal n cs with
      | none => none
      | some (v, rest) =>
          match skipWs rest with
          | ',' :: rest2 => readItems n rest2 (acc ++ [v])
          | ']' :: rest2 => some (acc ++ [v], rest2)
          | _ => none

end

/-- The embedding of Python `json.loads`: parse one JSON value and require
only whitespace to remain. `none` means `loads` raises. -/
def jsonLoads (s : String) : Option JValue :=
  match readVal (s.length + 2) s.toList with
  | some (v, rest) => if (skipWs rest).isEmpty then some v else none
  | none => none

/-- Inner scan for the regex `\{[^{}]*\}`: from a position just after a
`{`, collect non-brace characters up to a closing `}`.  `none` when
another `{` (or the end of input) comes first, in which case the regex
engine abandons this start position. -/
def braceInner : List Char → Option String
  | [] => none
  | c :: cs =>
      if c = '\x7d' then some ""
      else if c = '\x7b' then none
      else (braceInner cs).map (fun s => String.singleton c ++ s)

/-- Leftmost match of `re.search(r'\{[^{}]*\}', s, re.DOTALL)` over the
characters of `s`: the first `{` whose next brace character is `}`,
together with everything in between. -/
def findBraceMatch : List Char → Option String
  | [] => none
  | c :: cs =>
      if c = '\x7b' then
        match braceInner cs with
        | some inner => some ("\x7b" ++ inner ++ "\x7d")
        | none => findBraceMatch cs
      else findBraceMatch cs

/-- The shared "first brace-delimited object" extraction used by the
Parsing, Strategy and Risk agents (`re.search(r'\{[^{}]*\}', response)`). -/
def extractJsonMatch (s : String) : Option String :=
  findBraceMatch s.toList

/-- Python `needle in hay` on strings (substring containment). -/
def containsSub (hay needle : String) : Bool :=
  let h := hay.toList
  (List.range (h.length + 1)).any (fun i => needle.toList.isPrefixOf (h.drop i))

/-- `llm/json_guard.py` `_strip_code_fences`: trim, drop a leading
```` ```lang ```` line when present, drop a trailing ```` ``` ````. -/
def stripCodeFences (s : String) : String :=
  if s = "" then s
  else
    let s1 := pyStrip s
    let s2 :=
      if startsWithL s1 "```" then
        let rest := (s1.drop 3).toList
        let target := rest.dropWhile (fun c => c.isAlpha ∨ c.isDigit)
        match target with
        | '\n' :: tl => pyStrip (String.mk tl)
        | _ => s1
      else s1
    if endsWithL s2 "```" then pyStrip (String.mk (s2.toList.dropLast.dropLast.dropLast))
    else s2

/-- `llm/json_guard.py` `validate_json_response`: strip code fences and
`json.loads`; `none` models the `ValueError` it raises on failure. -/
def validateJsonResponse (txt : String) : Option JValue :=
  jsonLoads (stripCodeFences txt)

/-! ## Parsing agent (`agents/parsing_agent.py`) -/

/-- The fixed greeting list of `ParsingAgent.parse_query`. -/
def greetings : List String :=
  ["hello", "hi", "hey", "good morning", "good evening", "how are you"]

/-- The fixed intent record returned by the greeting fast path. -/
def greetingIntent : JValue :=
  .obj [("query_type", .str "general_knowledge"),
        ("intent", .str "greeting"),
        ("requires_knowledge", .bool false),
        ("requires_transaction_data", .bool false),
        ("requires_market_data", .bool false),
        ("keywords", .arr []),
        ("risk_profile_needed", .bool false)]

/-- The qualitative-allocation heuristic of `_fallback_parse`
(investment-advice branch only): a major bucket at 75% and a minor bucket
at `min 15 (100 - 75)`. -/
def inferredAllocation (ql : String) : Option JValue :=
  let present := fun (p : String) => containsSub ql p
  let majorBucket : Option String :=
    if present "blue chip" ∨ present "large cap" then
      some "Large Cap / Blue Chip"
    else if present "index" ∨ present "nifty" ∨ present "sensex" then
      some "Index Funds (Nifty/Sensex)"
    else none
  let minorBucket0 : Option String :=
    if present "mid cap" then some "Mid Cap"
    else if present "small cap" then some "Small Cap"
    else if present "tech" ∨ present "technology" ∨ present "new " then
      some "Emerging/Theme Tech"
    else none
  let minorBucket : Option String :=
    match majorBucket, minorBucket0 with
    | some _, none => some "Index Funds (Nifty/Sensex)"
    | _, mb => mb
  let majorWeight : MQ := 75
  let minorWeight : MQ := 15
  match majorBucket, minorBucket with
  | none, none => none
  | some mj, none =>
      some (.arr [.obj [("bucket", .str mj), ("percent", .num majorWeight)]])
  | some mj, some mn =>
      some (.arr [.obj [("bucket", .str mj), ("percent", .num majorWeight)],
                  .obj [("bucket", .str mn),
                        ("percent", .num (min minorWeight (100 - majorWeight)))]])
  | none, some mn =>
      some (.arr [.obj [("bucket", .str mn),
                        ("percent", .num (min minorWeight 100))]])

/-- `ParsingAgent._fallback_parse`.  Faithful to Python local-variable
semantics: in the `market` branch the source never assigns
`requires_transaction_data`, so building the result dict raises
`UnboundLocalError`; the error side of `Except` models that exception. -/
def fallbackParse (query : String) : Except String JValue :=
  let ql := pyLower query
  -- (query_type, requires_knowledge, requires_transaction_data as bound-or-not)
  let branch :
      String × Bool × Option Bool :=
    if ["spend", "expense", "budget", "transaction", "cashflow"].any
        (fun w => containsSub ql w) then
      ("transaction_analysis", false, some true)
    else if ["invest", "portfolio", "sip", "mutual fund", "stock",
             "allocation"].any (fun w => containsSub ql w) then
      ("investment_advice", true, some false)
    else if ["market", "price", "nav", "current"].any
        (fun w => containsSub ql w) then
      ("market_question", true, none)
    else
      ("general_knowledge", true, some false)
  let queryType := branch.1
  let requiresKnowledge := branch.2.1
  let keywords := (pyWords ql).filter (fun w => w.length > 3)
  let inferred :=
    if queryType = "investment_advice" then inferredAllocation ql else none
  match branch.2.2 with
  | none =>
      Except.error
        "UnboundLocalError: local variable referenced before assignment"
  | some requiresTransactionData =>
      let base : List (String × JValue) :=
        [("query_type", .str queryType),
         ("intent", .str (takeChars 100 query)),
         ("requires_knowledge", .bool requiresKnowledge),
         ("requires_transaction_data", .bool requiresTransactionData),
         ("requires_market_data", .bool (queryType = "market_question")),
         ("keywords", .arr ((keywords.take 5).map JValue.str)),
         ("risk_profile_needed",
          .bool (containsSub ql "risk" ∨ containsSub ql "investment"))]
      Except.ok
        (.obj (if inferred.isSome then
                 base ++ [("inferred_allocation", inferred.getD (.arr []))]
               else base))

/-- `ParsingAgent.parse_query`.  `llmResult` is the outcome of the single
`llm_client.complete` call (the prompt text only feeds the external
service and is elided).  The second component counts LLM calls issued.
The error side models an exception escaping `parse_query` (the `except`
handler itself calls `_fallback_parse`, outside any try). -/
def parseQuery (llmResult : Except String String) (userQuery : String)
    (_context : List (String × String)) : Except String JValue × Nat :=
  let ql := pyStrip (pyLower userQuery)
  if greetings.contains ql ∨ ql.length < 4 then
    (Except.ok greetingIntent, 0)
  else
    match llmResult with
    | .error _ => (fallbackParse userQuery, 1)
    | .ok response =>
        match extractJsonMatch response with
        | some m =>
            match jsonLoads m with
            | some parsed => (Except.ok parsed, 1)
            | none =>
                -- json.loads raised inside the try; the handler re-runs
                -- the fallback (whose own exception would escape).
                (fallbackParse userQuery, 1)
        | none => (fallbackParse userQuery, 1)

/-! ## Strategy agent (`agents/strategy_agent.py`) -/

/-- The static fallback `generate_strategy` returns when no brace-delimited
JSON is found in the LLM response (summary = first 200 characters of the
raw response). -/
def strategyNoMatchFallback (response : String) : JValue :=
  .obj [("strategy_summary", .str (takeChars 200 response)),
        ("recommendations", .arr []),
        ("action_items", .arr []),
        ("risk_notes", .str ""),
        ("time_horizon", .str "medium")]

/-- The static fallback `generate_strategy` returns when an exception is
raised (LLM call failure, or `json.loads` failure inside the try). -/
def strategyErrorFallback (e : String) : JValue :=
  .obj [("strategy_summary",
         .str ("Strategy generation encountered an error: " ++ e)),
        ("recommendations", .arr []),
        ("action_items", .arr []),
        ("risk_notes", .str ""),
        ("time_horizon", .str "medium")]

/-- `StrategyAgent.generate_strategy`.  The prompt concatenates the query
and the context blocks and only feeds the external LLM, so the result
depends only on the outcome of the `complete` call; the context arguments
are therefore elided here.  Never raises. -/
def generateStrategy (llmResult : Except String String) : JValue :=
  match llmResult with
  | .error e => strategyErrorFallback e
  | .ok response =>
      match extractJsonMatch response with
      | some m =>
          match jsonLoads m with
          | some v => v
          | none => strategyErrorFallback "Expecting value"
      | none => strategyNoMatchFallback response

/-! ## Risk agent (`agents/risk_agent.py`) -/

/-- The static fallback `assess_risk` uses when no brace-delimited JSON is
found in the LLM response. -/
def riskNoMatchFallback : JValue :=
  .obj [("risk_alignment", .str "medium"),
        ("risk_score", .num 5),
        ("adjustments_needed", .bool false),
        ("adjusted_recommendations", .arr []),
        ("risk_warnings", .arr []),
        ("suitability", .str "suitable")]

/-- The static fallback `assess_risk` returns when an exception is raised. -/
def riskErrorFallback (e : String) : JValue :=
  .obj [("risk_alignment", .str "unknown"),
        ("risk_score", .num 5),
        ("adjustments_needed", .bool false),
        ("adjusted_recommendations", .arr []),
        ("risk_warnings", .arr [.str ("Risk assessment error: " ++ e)]),
        ("suitability", .str "unknown")]

/-- `RiskAgent.assess_risk`.  Same extract-or-fallback shape as the
Strategy agent; the prompt only feeds the external LLM and is elided.
Never raises. -/
def assessRisk (llmResult : Except String String) : JValue :=
  match llmResult with
  | .error e => riskErrorFallback e
  | .ok response =>
      match extractJsonMatch response with
      | some m =>
          match jsonLoads m with
          | some v => v
          | none => riskErrorFallback "Expecting value"
      | none => riskNoMatchFallback

/-! ## Output agent (`agents/output_agent.py`) -/

/-- The final response envelope (`answer` may be any JSON value: the
orchestrator's JSON-detection path can store a parsed object there). -/
structure Response where
  answer : JValue
  status : String
  rtype : String
  metadata : Option JValue := none
  data : Option JValue := none
  visualizations : Option JValue := none
  financial_analysis : Option JValue := none
  implementation_plan : Option JValue := none

/-- Truthiness of an optional lookup (`dict.get(k)` used inside `if`). -/
def truthyOpt : Option JValue → Bool
  | some v => v.truthy
  | none => false

/-- Python `x[:n]` on a pipeline value; anything but a list raises
`TypeError` in the source (string slicing never occurs on these fields). -/
def pySlice (j : JValue) (n : Nat) : Except String (List JValue) :=
  match j with
  | .arr xs => Except.ok (xs.take n)
  | _ => Except.error "TypeError: unhashable slice"

/-- `format_response` line 38: risk-adjusted recommendations take
precedence over the strategy's own whenever truthy (non-empty). -/
def chosenRecs (strategy riskAssessment : JValue) : JValue :=
  riskAssessment.getOr "adjusted_recommendations"
    (strategy.getD "recommendations" (.arr []))

/-- One rendered recommendation bullet
(`f"- **{category}**: {allocation}% - {rationale}"`). -/
def renderRec (rec : JValue) : Except String String :=
  match rec with
  | .obj _ =>
      let allocation :=
        rec.getOr "adjusted_allocation" (rec.getD "allocation_percentage" (.num 0))
      let category := rec.getD "category" (.str "Unknown")
      let rationale := rec.getD "rationale" (.str "")
      Except.ok
        ("- **" ++ pyStr category ++ "**: " ++ pyStr allocation ++ "% - " ++
          pyStr rationale)
  | _ => Except.error "AttributeError: no attribute get"

/-- The recommendation block of `format_response` (header plus up to five
bullets), empty when the chosen list is falsy. -/
def recBlock (strategy riskAssessment : JValue) : Except String (List String) :=
  let recommendations := chosenRecs strategy riskAssessment
  if recommendations.truthy then
    match pySlice recommendations 5 with
    | .error e => Except.error e
    | .ok recs =>
        match recs.mapM renderRec with
        | .error e => Except.error e
        | .ok lines => Except.ok ("\n**Recommended Allocation:**" :: lines)
  else Except.ok []

/-- The risk-warnings block of `format_response` (up to three warnings). -/
def warnBlock (riskAssessment : JValue) : Except String (List String) :=
  if truthyOpt (riskAssessment.get "risk_warnings") then
    match pySlice (riskAssessment.getD "risk_warnings" (.arr [])) 3 with
    | .error e => Except.error e
    | .ok ws =>
        Except.ok
          ("\n**Risk Considerations:**" :: ws.map (fun w => "- " ++ pyStr w))
  else Except.ok []

/-- The transaction-patterns block of `format_response`.  The currency
glyph and the `:,.0f` thousands formatting of the source are rendered via
`pyStr`; no theorem depends on this text. -/
def insightsBlock (transactionInsights : Option JValue) : List String :=
  match transactionInsights with
  | some ti =>
      if ti.truthy then
        ["\n**Your Financial Patterns:**"] ++
        (if truthyOpt (ti.get "monthly_spend") then
          ["- Monthly spending: " ++ pyStr (ti.getD "monthly_spend" (.num 0))]
         else []) ++
        (if truthyOpt (ti.get "savings_rate") then
          ["- Savings rate: " ++ pyStr (ti.getD "savings_rate" (.num 0)) ++ "%"]
         else [])
      else []
  | none => []

/-- The next-steps block of `format_response` (up to five action items). -/
def actionBlock (strategy : JValue) : Except String (List String) :=
  if truthyOpt (strategy.get "action_items") then
    match pySlice (strategy.getD "action_items" (.arr [])) 5 with
    | .error e => Except.error e
    | .ok items =>
        Except.ok ("\n**Next Steps:**" :: items.map (fun i => "- " ++ pyStr i))
  else Except.ok []

/-- Distinct knowledge-source titles of the first three chunks (the
source collects them in a Python set; modelled as first-occurrence
dedup — no theorem depends on the ordering). -/
def sourceTitles (chunks : List JValue) : List String :=
  (((chunks.take 3).map
      (fun c => (c.getD "metadata" (.obj [])).getD "title" (.str "Unknown")))
    |>.filter JValue.truthy |>.map pyStr).dedup

/-- The provenance footer of `format_response`. -/
def sourcesBlock (knowledgeSources : Option (List JValue)) : List String :=
  match knowledgeSources with
  | some chunks =>
      if chunks.isEmpty then []
      else
        let sources := sourceTitles chunks
        if sources.isEmpty then []
        else ["\n*Based on insights from: " ++
                String.intercalate ", " sources ++ "*"]
  | none => []

/-- `OutputAgent.format_response`: deterministic text assembly of the
final envelope (no LLM call).  An error models the `TypeError` /
`AttributeError` Python would raise on non-list recommendation fields. -/
def formatResponse (strategy riskAssessment : JValue)
    (transactionInsights : Option JValue)
    (knowledgeSources : Option (List JValue)) : Except String Response :=
  let summaryBlock : List String :=
    if truthyOpt (strategy.get "strategy_summary") then
      ["**Investment Strategy:**\n" ++
        pyStr (strategy.getD "strategy_summary" .null)]
    else []
  match recBlock strategy riskAssessment with
  | .error e => Except.error e
  | .ok recs =>
      match warnBlock riskAssessment with
      | .error e => Except.error e
      | .ok warns =>
          match actionBlock strategy with
          | .error e => Except.error e
          | .ok acts =>
              let answerParts :=
                summaryBlock ++ recs ++ warns ++
                  insightsBlock transactionInsights ++ acts ++
                  sourcesBlock knowledgeSources
              Except.ok
                { answer := .str (String.intercalate "\n" answerParts)
                  status := "success"
                  rtype := "strategy_recommendation"
                  metadata := some (.obj
                    [("risk_score", riskAssessment.getD "risk_score" (.num 5)),
                     ("risk_alignment",
                      riskAssessment.getD "risk_alignment" (.str "medium")),
                     ("suitability",
                      riskAssessment.getD "suitability" (.str "suitable")),
                     ("knowledge_sources_count",
                      .num (match knowledgeSources with
                            | some chunks => MQ.ofN chunks.length
                            | none => 0))])
                  data := some (.obj
                    [("strategy", strategy),
                     ("risk_assessment", riskAssessment)]) }

/-- `OutputAgent.format_simple_response`. -/
def formatSimpleResponse (answer : String)
    (knowledgeSources : Option (List JValue)) : Response :=
  { answer := .str answer
    status := "success"
    rtype := "text"
    metadata :=
      match knowledgeSources with
      | some chunks =>
          if chunks.isEmpty then none
          else some (.obj [("knowledge_sources",
            .arr ((chunks.take 3).map
              (fun c => (c.getD "metadata" (.obj [])).getD "title"
                (.str "Unknown"))))])
      | none => none }

/-! ## LLM client (`llm/llm_client.py`, provider "free") -/

/-- Outcome of one `requests.post` attempt: a transport-level exception
(`requests.RequestException`) or an HTTP response with status and raw
body text. -/
inductive AttemptOutcome where
  | transport (msg : String)
  | response (status : Nat) (body : String)

/-- The Python exception escaping `LLMClient.complete`: the typed
`RuntimeError`s the method raises itself, or the `AttributeError` Python
raises when `.get` is called on a non-dict parsed body. -/
inductive PyError where
  | runtimeError (msg : String)
  | attributeError (msg : String)

/-- The retry loop of `complete` (`for attempt in range(self.retries + 1)`).
Arguments: backoff seconds `b`, the oracle of attempt outcomes, the
current attempt index, and the retries still allowed.  Returns the loop
result, the number of attempts made, and the backoff sleeps performed
(`backoff_seconds * (attempt + 1)` after each failed attempt). -/
def runAttempts (b : MQ) (attempts : Nat → AttemptOutcome) :
    Nat → Nat → Except String (Nat × String) × Nat × List MQ
  | k, 0 =>
      match attempts k with
      | .response st body => (Except.ok (st, body), 1, [])
      | .transport m => (Except.error ("LLM request failed: " ++ m), 1, [])
  | k, r + 1 =>
      match attempts k with
      | .response st body => (Except.ok (st, body), 1, [])
      | .transport _ =>
          let rest := runAttempts b attempts (k + 1) r
          (rest.1, rest.2.1 + 1, b * MQ.ofN (k + 1) :: rest.2.2)

/-- Probe an ordered list of keys for a string value (`isinstance(js.get(k), str)`). -/
def probeStrKeys (js : JValue) : List String → Option String
  | [] => none
  | k :: ks =>
      match js.get k with
      | some (.str s) => some s
      | _ => probeStrKeys js ks

/-- The response-envelope normalization of `complete` (source lines
94-127): success-gated probes, the OpenAI-like `choices` shape, top-level
text keys, then a `data` block.  `ok none` means no shape matched (the
source then raises its "LLM error" RuntimeError); the error side models
the `AttributeError` raised when `.get` is applied to a non-dict. -/
def extractFreeText (js : JValue) : Except PyError (Option String) :=
  match js with
  | .obj _ =>
      let gated :=
        match js.get "status" with
        | some (.str s) =>
            if s = "success" then
              probeStrKeys js ["response", "message", "output", "text"]
            else none
        | _ => none
      match gated with
      | some s => Except.ok (some s)
      | none =>
          let fromChoices : Except PyError (Option String) :=
            match js.get "choices" with
            | some (.arr (c0 :: _)) =>
                let choice0 := if c0.truthy then c0 else .obj []
                match choice0 with
                | .obj _ =>
                    let msg := choice0.getOr "message" (.obj [])
                    match msg with
                    | .obj _ =>
                        match msg.get "content" with
                        | some (.str s) => Except.ok (some s)
                        | _ =>
                            match choice0.get "text" with
                            | some (.str s) => Except.ok (some s)
                            | _ => Except.ok none
                    | _ =>
                        match choice0.get "text" with
                        | some (.str s) => Except.ok (some s)
                        | _ => Except.ok none
                | _ =>
                    Except.error (.attributeError
                      "object has no attribute get")
            | _ => Except.ok none
          match fromChoices with
          | .error e => Except.error e
          | .ok (some s) => Except.ok (some s)
          | .ok none =>
              match probeStrKeys js
                  ["answer", "response", "message", "output", "text"] with
              | some s => Except.ok (some s)
              | none =>
                  let dataBlock := js.getOr "data" (.obj [])
                  match dataBlock with
                  | .obj _ =>
                      Except.ok (probeStrKeys dataBlock
                        ["answer", "response", "message", "output", "text"])
                  | _ =>
                      Except.error (.attributeError
                        "object has no attribute get")
  | .arr _ =>
      Except.error (.attributeError "'list' object has no attribute 'get'")
  | _ => Except.error (.attributeError "object has no attribute get")

/-- Post-processing of the loop outcome (source lines 84-127): HTTP
status check, JSON decoding, envelope normalization. -/
def llmFinish : Except String (Nat × String) → Except PyError String
  | .error e => Except.error (.runtimeError e)
  | .ok (st, body) =>
      if 200 ≤ st ∧ st < 300 then
        match jsonLoads body with
        | none =>
            Except.error (.runtimeError
              ("Non-JSON response from LLM: " ++ takeChars 300 body))
        | some js =>
            match extractFreeText js with
            | .error e => Except.error e
            | .ok (some text) => Except.ok text
            | .ok none =>
                Except.error (.runtimeError
                  ("LLM error: status=" ++ pyStr (js.getD "status" .null) ++
                    " error=" ++ pyStr (js.getOr "error" js)))
      else
        Except.error (.runtimeError
          ("LLM HTTP " ++ toString st ++ ": " ++ takeChars 300 body))

/-- `LLMClient.complete` for the default provider "free": bounded retry on
transport exceptions only, then `llmFinish`.  Returns the outcome plus
the number of POST attempts made and the backoff sleeps performed. -/
def llmComplete (retries : Nat) (b : MQ) (attempts : Nat → AttemptOutcome) :
    Except PyError String × Nat × List MQ :=
  let r := runAttempts b attempts 0 retries
  (llmFinish r.1, r.2)

/-! ## Tabular data accessor
(`app/tools/enhanced_csv_tools.py`, `app/tools/csv_tools.py`)

The embedding follows the in-process pandas branch of each accessor
(`_HAS_DUCKDB = False`); the DuckDB branch delegates the same aggregation
to an external SQL engine.  A CSV file is its list of rows of cells
(header row first); an empty list models a zero-byte file, on which
`pd.read_csv` raises `EmptyDataError` in both branches.  Dates are the
ISO `YYYY-MM-DD` form used by the repository's data; other formats
coerce to NaT exactly like unparsable strings do. -/

/-- Raw contents of a CSV file: rows of cells, header row first. -/
def FileData := List (List String)

/-- A loaded dataframe. -/
structure Frame where
  headers : List String
  rows : List (List String)

/-- `pd.read_csv`: `EmptyDataError` on a zero-byte file. -/
def readCsv : FileData → Except String Frame
  | [] => Except.error "EmptyDataError: No columns to parse from file"
  | h :: rs => Except.ok ⟨h, rs⟩

/-- First alias present among the frame's columns. -/
def firstCol (candidates headers : List String) : Option String :=
  candidates.find? (fun c => headers.contains c)

/-- Date-column aliases (`_detect_columns`). -/
def detectDateCol (headers : List String) : Option String :=
  firstCol ["ts", "date", "Date", "DATE"] headers

/-- Amount-column aliases (`_detect_columns`). -/
def detectAmountCol (headers : List String) : Option String :=
  firstCol ["amount", "Amount", "AMOUNT", "monthly_expense_total"] headers

/-- Category-column aliases (`_detect_columns`). -/
def detectCategoryCol (headers : List String) : Option String :=
  firstCol ["category", "Category", "CATEGORY"] headers

/-- Merchant-column aliases (`_merchant_column`). -/
def detectMerchantCol (headers : List String) : Option String :=
  firstCol ["merchant", "description", "narration", "Merchant",
            "Description"] headers

/-- Cell of a row under a named column; `none` (pandas NaN) when the
column is absent, the row is short, or the cell is empty. -/
def cellAtH (headers row : List String) (col : String) : Option String :=
  match headers.indexOf? col with
  | some i =>
      match row.get? i with
      | some c => if c = "" then none else some c
      | none => none
  | none => none

/-- Numeral string to `Nat`. -/
def natOfDigits (s : String) : Option Nat :=
  if s ≠ "" ∧ s.toList.all Char.isDigit then
    some (s.toList.foldl (fun a c => a * 10 + (c.toNat - 48)) 0)
  else none

/-- `pd.to_datetime(_, errors="coerce")` on the ISO dates this repository
stores: `YYYY-MM-DD` with a plausible month and day; anything else is NaT. -/
def parseDateIso (s : String) : Option (ℤ × ℤ × ℤ) :=
  match splitOnChar '-' s with
  | [y, m, d] =>
      match natOfDigits y, natOfDigits m, natOfDigits d with
      | some yv, some mv, some dv =>
          if 1 ≤ mv ∧ mv ≤ 12 ∧ 1 ≤ dv ∧ dv ≤ 31 then
            some ((yv : ℤ), (mv : ℤ), (dv : ℤ))
          else none
      | _, _, _ => none
  | _ => none

/-- `pd.to_numeric(_, errors="coerce")` of one cell. -/
def parseNumQ (s : String) : Option MQ :=
  match readNumber (pyStrip s).toList with
  | some (q, []) => some q
  | _ => none

/-- One half. -/
def mqHalf : MQ := ⟨1, 2⟩

/-- Round to 2 decimal places.  Python's float `round` is
round-half-to-even; the half-up form here differs only at exact ties,
which no checked input exercises. -/
def round2 (q : MQ) : MQ := MQ.ofInt (mqFloor (q * 100 + mqHalf)) / 100

/-- Round to 4 decimal places (same tie caveat as `round2`). -/
def round4 (q : MQ) : MQ := MQ.ofInt (mqFloor (q * 10000 + mqHalf)) / 10000

/-- Insertion sort by a boolean "less or equal" (stable). -/
def insSortBy (le : α → α → Bool) : List α → List α
  | [] => []
  | x :: xs => insInsert le x (insSortBy le xs)
where
  insInsert (le : α → α → Bool) (x : α) : List α → List α
    | [] => [x]
    | y :: ys => if le x y then x :: y :: ys else y :: insInsert le x ys

/-- `df[ds.dt.year == year]` (and month): keep rows whose date cell parses
and matches the filters; NaT rows drop out of the comparison. -/
def filterYM (headers : List String) (dcol : Option String)
    (year month : Option ℤ) (rows : List (List String)) :
    List (List String) :=
  match dcol with
  | none => rows
  | some c =>
      let r1 :=
        match year with
        | none => rows
        | some y =>
            rows.filter (fun r =>
              match (cellAtH headers r c).bind parseDateIso with
              | some t => decide (t.1 = y)
              | none => false)
      match month with
      | none => r1
      | some m =>
          r1.filter (fun r =>
            match (cellAtH headers r c).bind parseDateIso with
            | some t => decide (t.2.1 = m)
            | none => false)

/-- Grouped sums by string key, keys ascending (pandas `groupby` sorts
group keys; rows whose key cell is NaN are dropped, `dropna=True`).
Unparsable amount cells are NaN and are skipped by the sum. -/
def groupSums (pairs : List (String × Option MQ)) : List (String × MQ) :=
  let keys := insSortBy strLeB (pairs.map Prod.fst).dedup
  keys.map (fun k =>
    (k, mqSum ((pairs.filter (fun p => p.1 = k)).filterMap Prod.snd)))

/-- JSON rendering of an optional integer filter echoed back. -/
def optIntJ : Option ℤ → JValue
  | some n => .num (MQ.ofInt n)
  | none => .null

/-- `enhanced_csv_tools.total_spend` (pandas branch).  `pathres` is the
result of `csv_path or get_user_csv_path(user_id)`; `fs` resolves a path
to the file's contents when it exists.  The error side models an
exception escaping the function. -/
def totalSpend (pathres : Option String) (fs : String → Option FileData)
    (year month : Option ℤ) : Except String JValue :=
  match pathres with
  | none =>
      Except.ok (.obj [("total", .num 0),
                       ("notes", .str "No data available")])
  | some p =>
      match fs p with
      | none => Except.error ("FileNotFoundError: CSV not found at " ++ p)
      | some data =>
          match readCsv data with
          | .error e => Except.error e
          | .ok f =>
          match detectAmountCol f.headers with
          | none =>
              Except.ok (.obj [("total", .num 0),
                          ("notes", .str "amount column not found")])
          | some amtCol =>
              let rows := filterYM f.headers (detectDateCol f.headers)
                year month f.rows
              let total :=
                ((rows.map (fun r => cellAtH f.headers r amtCol)).map
                  (fun c => c.bind parseNumQ)).filterMap id |>.sum
              Except.ok (.obj [("year", optIntJ year), ("month", optIntJ month),
                          ("total", .num (round2 total))])

/-- Month key of a row (`ds.dt.to_period("M").astype(str)`): `YYYY-MM`,
or the string `"NaT"` for unparsable dates. -/
def monthKey (headers row : List String) (dcol : String) : String :=
  match (cellAtH headers row dcol).bind parseDateIso with
  | some t =>
      toString t.1 ++ "-" ++
        (if t.2.1 < 10 then "0" ++ toString t.2.1 else toString t.2.1)
  | none => "NaT"

/-- Day key of a row (`ds.dt.date.astype(str)`): `YYYY-MM-DD` or `"NaT"`. -/
def dayKey (headers row : List String) (dcol : String) : String :=
  match (cellAtH headers row dcol).bind parseDateIso with
  | some t =>
      toString t.1 ++ "-" ++
        (if t.2.1 < 10 then "0" ++ toString t.2.1 else toString t.2.1) ++
        "-" ++
        (if t.2.2 < 10 then "0" ++ toString t.2.2 else toString t.2.2)
  | none => "NaT"

/-- `enhanced_csv_tools.monthly_spend` (pandas branch). -/
def monthlySpend (pathres : Option String) (fs : String → Option FileData)
    (year : Option ℤ) : Except String JValue :=
  match pathres with
  | none =>
      Except.ok (.obj [("items", .arr []),
                       ("notes", .str "No data available")])
  | some p =>
      match fs p with
      | none => Except.error ("FileNotFoundError: CSV not found at " ++ p)
      | some data =>
          match readCsv data with
          | .error e => Except.error e
          | .ok f =>
          match detectDateCol f.headers, detectAmountCol f.headers with
          | some dcol, some amtCol =>
              let rows := filterYM f.headers (some dcol) year none f.rows
              let pairs := rows.map (fun r =>
                (monthKey f.headers r dcol,
                 (cellAtH f.headers r amtCol).bind parseNumQ))
              let items := (groupSums pairs).map (fun kv =>
                JValue.obj [("month", .str kv.1),
                            ("spent", .num (round2 kv.2))])
              Except.ok (.obj [("year", optIntJ year), ("items", .arr items)])
          | _, _ =>
              Except.ok (.obj [("items", .arr []),
                          ("notes", .str "date/amount columns not found")])

/-- `enhanced_csv_tools.daily_spend` (pandas branch). -/
def dailySpend (pathres : Option String) (fs : String → Option FileData)
    (year month : Option ℤ) : Except String JValue :=
  match pathres with
  | none =>
      Except.ok (.obj [("items", .arr []),
                       ("notes", .str "No data available")])
  | some p =>
      match fs p with
      | none => Except.error ("FileNotFoundError: CSV not found at " ++ p)
      | some data =>
          match readCsv data with
          | .error e => Except.error e
          | .ok f =>
          match detectDateCol f.headers, detectAmountCol f.headers with
          | some dcol, some amtCol =>
              let rows := filterYM f.headers (some dcol) year month f.rows
              let pairs := rows.map (fun r =>
                (dayKey f.headers r dcol,
                 (cellAtH f.headers r amtCol).bind parseNumQ))
              let items := (groupSums pairs).map (fun kv =>
                JValue.obj [("day", .str kv.1),
                            ("spent", .num (round2 kv.2))])
              Except.ok (.obj [("year", optIntJ year), ("month", optIntJ month),
                          ("items", .arr items)])
          | _, _ =>
              Except.ok (.obj [("items", .arr []),
                          ("notes", .str "date/amount columns not found")])

/-- Sort grouped sums descending by spend (`sort_values(ascending=False)`;
the model's sort is stable, which only matters at exact ties). -/
def sortBySpendDesc (g : List (String × MQ)) : List (String × MQ) :=
  insSortBy (fun a b => decide (b.2 ≤ a.2)) g

/-- `enhanced_csv_tools.category_stats` (pandas branch). -/
def categoryStats (pathres : Option String) (fs : String → Option FileData)
    (year month : Option ℤ) : Except String JValue :=
  match pathres with
  | none =>
      Except.ok (.obj [("items", .arr []),
                       ("notes", .str "No data available")])
  | some p =>
      match fs p with
      | none => Except.error ("FileNotFoundError: CSV not found at " ++ p)
      | some data =>
          match readCsv data with
          | .error e => Except.error e
          | .ok f =>
          match detectAmountCol f.headers, detectCategoryCol f.headers with
          | some amtCol, some catCol =>
              let rows := filterYM f.headers (detectDateCol f.headers)
                year month f.rows
              let pairs := rows.filterMap (fun r =>
                (cellAtH f.headers r catCol).map (fun c =>
                  (c, (cellAtH f.headers r amtCol).bind parseNumQ)))
              let items := (sortBySpendDesc (groupSums pairs)).map (fun kv =>
                JValue.obj [("category", .str kv.1),
                            ("spent", .num (round2 kv.2))])
              Except.ok (.obj [("year", optIntJ year), ("month", optIntJ month),
                          ("items", .arr items)])
          | _, _ =>
              Except.ok (.obj [("items", .arr []),
                          ("notes", .str "amount/category columns not found")])

/-- `enhanced_csv_tools.merchant_stats` (pandas branch). -/
def merchantStats (pathres : Option String) (fs : String → Option FileData)
    (year month : Option ℤ) (topN : Nat) : Except String JValue :=
  match pathres with
  | none =>
      Except.ok (.obj [("items", .arr []),
                       ("notes", .str "No data available")])
  | some p =>
      match fs p with
      | none => Except.error ("FileNotFoundError: CSV not found at " ++ p)
      | some data =>
          match readCsv data with
          | .error e => Except.error e
          | .ok f =>
          match detectMerchantCol f.headers, detectAmountCol f.headers with
          | some mcol, some amtCol =>
              let rows := filterYM f.headers (detectDateCol f.headers)
                year month f.rows
              let pairs := rows.filterMap (fun r =>
                (cellAtH f.headers r mcol).map (fun c =>
                  (c, (cellAtH f.headers r amtCol).bind parseNumQ)))
              let nn := if topN = 0 then 10 else topN
              let items :=
                ((sortBySpendDesc (groupSums pairs)).take nn).map (fun kv =>
                  JValue.obj [("merchant", .str kv.1),
                              ("spent", .num (round2 kv.2))])
              Except.ok (.obj [("year", optIntJ year), ("month", optIntJ month),
                          ("items", .arr items)])
          | _, _ =>
              Except.ok (.obj [("items", .arr []),
                          ("notes", .str "merchant/amount columns not found")])

/-- Lexicographic order on dates. -/
def dateLe (a b : ℤ × ℤ × ℤ) : Bool :=
  decide (a.1 < b.1) ||
    (decide (a.1 = b.1) &&
      (decide (a.2.1 < b.2.1) ||
        (decide (a.2.1 = b.2.1) && decide (a.2.2 ≤ b.2.2))))

/-- ISO rendering of a date (`str(ts.date())`). -/
def isoOfDate (t : ℤ × ℤ × ℤ) : String :=
  toString t.1 ++ "-" ++
    (if t.2.1 < 10 then "0" ++ toString t.2.1 else toString t.2.1) ++
    "-" ++
    (if t.2.2 < 10 then "0" ++ toString t.2.2 else toString t.2.2)

/-- `enhanced_csv_tools.time_coverage`.  Unlike the other accessors it has
no `if not path` guard: a `None` resolved path reaches
`os.path.exists(None)` inside `_ensure_csv_exists` and raises `TypeError`;
an existing-but-empty file raises `EmptyDataError`; and its no-date-column
result carries no notes field. -/
def timeCoverage (pathres : Option String)
    (fs : String → Option FileData) : Except String JValue :=
  match pathres with
  | none =>
      Except.error
        "TypeError: stat: path should be string, bytes, os.PathLike or integer, not NoneType"
  | some p =>
      match fs p with
      | none => Except.error ("FileNotFoundError: CSV not found at " ++ p)
      | some data =>
          match readCsv data with
          | .error e => Except.error e
          | .ok f =>
          match detectDateCol f.headers with
          | none => Except.ok (.obj [("min", .null), ("max", .null)])
          | some dcol =>
              let dates := f.rows.filterMap (fun r =>
                (cellAtH f.headers r dcol).bind parseDateIso)
              match dates with
              | [] => Except.ok (.obj [("min", .null), ("max", .null)])
              | d0 :: ds =>
                  let mn := ds.foldl (fun a d => if dateLe d a then d else a) d0
                  let mx := ds.foldl (fun a d => if dateLe a d then d else a) d0
                  Except.ok (.obj [("min", .str (isoOfDate mn)),
                              ("max", .str (isoOfDate mx))])

/-- Grouped merchant sums for `csv_tools.top_merchants`
(`groupby(merchant_col, dropna=False)`): string keys ascending, then the
NaN group (missing merchant cells) last, as pandas orders it. -/
def merchGroupsD (headers : List String) (rows : List (List String))
    (mcol amtCol : String) : List (Option String × MQ) :=
  let pairs := rows.map (fun r =>
    (cellAtH headers r mcol, (cellAtH headers r amtCol).bind parseNumQ))
  let someKeys :=
    insSortBy strLeB (pairs.filterMap Prod.fst).dedup
  let base := someKeys.map (fun k =>
    (some k,
     mqSum ((pairs.filter (fun p => p.1 = some k)).filterMap Prod.snd)))
  if pairs.any (fun p => p.1.isNone) then
    base ++
      [(none,
        mqSum ((pairs.filter (fun p => p.1.isNone)).filterMap Prod.snd))]
  else base

/-- `grp["spent"].sum()` across all merchant groups. -/
def merchTotal (g : List (Option String × MQ)) : MQ := mqSum (g.map Prod.snd)

/-- `total_spent = float(grp["spent"].sum() or 0.0) or 1.0`: Python `or`
substitutes 1.0 exactly when the sum is falsy, i.e. equal to 0. -/
def merchDivisor (g : List (Option String × MQ)) : MQ :=
  if merchTotal g = 0 then 1 else merchTotal g

/-- A merchant key in the result records (the NaN group surfaces as a
float NaN in the Python dict; modelled as null). -/
def renderMerchKey : Option String → JValue
  | some s => .str s
  | none => .null

/-- The item records built by `top_merchants`: share computed against the
substituted divisor before sorting, then sort by spend descending, keep
the first `n` (10 when `n` is falsy), and round spend to 2 decimals. -/
def topMerchantsItems (headers : List String) (rows : List (List String))
    (mcol amtCol : String) (n : Nat) : List JValue :=
  let g := merchGroupsD headers rows mcol amtCol
  let d := merchDivisor g
  let withShare := g.map (fun kv => (kv.1, kv.2, round4 (kv.2 / d)))
  let top := (insSortBy (fun a b => decide (b.2.1 ≤ a.2.1)) withShare).take
    (if n = 0 then 10 else n)
  top.map (fun kv =>
    JValue.obj [("merchant", renderMerchKey kv.1),
                ("spent", .num (round2 kv.2.1)),
                ("share", .num kv.2.2)])

/-- `csv_tools.top_merchants`.  `month` is the optional `YYYY-MM` filter
string (`None` or empty is no filter). -/
def topMerchants (pathres : Option String) (fs : String → Option FileData)
    (month : Option String) (n : Nat) : Except String JValue :=
  match pathres with
  | none =>
      Except.ok (.obj [("items", .arr []),
                       ("notes", .str "No transaction data available")])
  | some p =>
      match fs p with
      | none => Except.error ("FileNotFoundError: CSV not found at " ++ p)
      | some data =>
          match readCsv data with
          | .error e => Except.error e
          | .ok f =>
          let rows :=
            match detectDateCol f.headers, month with
            | some dcol, some m =>
                if m = "" then f.rows
                else f.rows.filter (fun r => monthKey f.headers r dcol = m)
            | _, _ => f.rows
          match detectMerchantCol f.headers, detectAmountCol f.headers with
          | some mcol, some amtCol =>
              Except.ok (.obj
                [("month", .str (month.getD "all")),
                 ("items", .arr (topMerchantsItems f.headers rows mcol amtCol n))])
          | _, _ =>
              Except.ok (.obj [("items", .arr []),
                          ("notes", .str "merchant/amount column missing")])

/-! ## Orchestrator (`vectordb/orchestrator.py`) -/

/-- The per-request environment: outcomes of the external calls the
orchestrator makes, at exactly the boundaries the source uses.
`llm` lists successive outcomes of `llm_client.complete`; `retrieval` is
what `knowledge_store.retrieve_knowledge` returns; `dataAnalysis` and
`visualizations` are the pair `_get_comprehensive_data_context` returns
(that helper makes no LLM call and catches all its own exceptions);
`transactionSummary` / `financialAnalysis` are the try-protected products
of step 3; `riskProfile` is `get_risk_profile`'s dict;
`implementationData` / `implementationAnswer` are what the deterministic
implementation agent formats when invoked. -/
structure Env where
  llm : List (Except String String)
  retrieval : List JValue
  dataAnalysis : String
  visualizations : JValue
  transactionSummary : Option JValue
  financialAnalysis : Option JValue
  riskProfile : JValue
  implementationData : JValue
  implementationAnswer : String
  systemAdvisor : String

/-- Outcome of the k-th `llm_client.complete` call of the request. -/
def llmAt (env : Env) (k : Nat) : Except String String :=
  (env.llm.get? k).getD (Except.error "IndexError: missing oracle outcome")

/-- Which pipeline stages a request ran, and how many consolidated
single-prompt completions it issued. -/
structure Trace where
  parseCalls : Nat
  strategyRan : Bool
  riskRan : Bool
  implementationRan : Bool
  outputFormatRan : Bool
  singleCompletions : Nat

/-- `EnhancedOrchestrator.__init__` line 52 sets
`self.use_vectordb = False` ("Streamlined for speed"); the exception and
import-failure arms also set `False`, so the flag is constantly false. -/
def initUseVectordb : Bool := false

/-- The investment-type query set of workflow step 4. -/
def isInvestmentType (queryType : JValue) : Bool :=
  match queryType with
  | .str s =>
      decide (s = "investment_advice") || decide (s = "portfolio_question") ||
        decide (s = "market_question")
  | _ => false

/-- `EnhancedOrchestrator._process_with_vectordb_workflow`: parse, gated
retrieval and transaction summary, then either the
Strategy → Risk → optional Implementation → Output pipeline (when the
intent is investment-type and knowledge chunks exist) or one consolidated
completion formatted by `format_simple_response`.  Any exception inside
is caught and surfaces as `none` (the source returns `None`). -/
def processWithVectordbWorkflow (env : Env) (message : String)
    (context : List (String × String)) : Option Response × Trace :=
  let pq := parseQuery (llmAt env 0) message context
  match pq.1 with
  | .error _ => (none, ⟨pq.2, false, false, false, false, 0⟩)
  | .ok parsed =>
      let knowledgeContext :=
        if (parsed.getD "requires_knowledge" (.bool false)).truthy then
          env.retrieval
        else []
      let requiresTx :=
        (parsed.getD "requires_transaction_data" (.bool false)).truthy
      let transactionSummary :=
        if requiresTx then env.transactionSummary else none
      let financialAnalysis :=
        if requiresTx then env.financialAnalysis else none
      let queryType := parsed.getD "query_type" (.str "")
      if isInvestmentType queryType ∧ ¬knowledgeContext.isEmpty then
        let strategy := generateStrategy (llmAt env pq.2)
        let riskAssessment := assessRisk (llmAt env (pq.2 + 1))
        -- line 451 repeats the `adjusted_recommendations or recommendations`
        -- expression of the Output agent
        let recommendations := chosenRecs strategy riskAssessment
        let implRan := recommendations.truthy
        let t : Trace := ⟨pq.2, true, true, implRan, true, 0⟩
        match formatResponse strategy riskAssessment transactionSummary
            (some knowledgeContext) with
        | .error _ => (none, t)
        | .ok response0 =>
            let response1 :=
              match financialAnalysis with
              | some fa =>
                  { response0 with financial_analysis := some fa,
                                   rtype := "strategy_with_analysis" }
              | none => response0
            let response2 :=
              if implRan then
                { response1 with
                    implementation_plan := some env.implementationData,
                    answer := .str (pyStr response1.answer ++ "\n\n---\n\n" ++
                      env.implementationAnswer),
                    rtype :=
                      if response1.rtype = "strategy_with_analysis" then
                        "strategy_with_analysis_and_implementation"
                      else "strategy_with_implementation" }
              else response1
            (some response2, t)
      else
        let knowledgeText :=
          if knowledgeContext.isEmpty then ""
          else
            "RELEVANT KNOWLEDGE:\n" ++
              String.intercalate ""
                ((knowledgeContext.take 3).map
                  (fun c => "\n" ++ pyStr (c.getD "content" (.str "")) ++ "\n")) ++
              "\n\n"
        let fullPrompt :=
          env.systemAdvisor ++ "\n\n" ++ knowledgeText ++
            (if env.dataAnalysis = "" then ""
             else "TRANSACTION DATA CONTEXT:\n" ++ env.dataAnalysis ++ "\n\n") ++
            "User Question: " ++ message ++ "\n\n"
        let _ := fullPrompt   -- feeds the external LLM only
        let t : Trace := ⟨pq.2, false, false, false, false, 1⟩
        match llmAt env pq.2 with
        | .error _ => (none, t)
        | .ok responseText =>
            let response0 :=
              formatSimpleResponse responseText (some knowledgeContext)
            let response1 :=
              if env.visualizations.truthy then
                { response0 with visualizations := some env.visualizations,
                                 rtype := "visualization" }
              else response0
            let response2 :=
              match financialAnalysis with
              | some fa =>
                  { response1 with
                    financial_analysis := some fa
                    rtype :=
                      if response1.rtype = "visualization" then
                        "visualization_with_analysis"
                      else "analysis" }
              | none => response1
            (some response2, t)

/-- The fixed instruction suffix of the consolidated prompt (source lines
581-587). -/
def chatInstructions : String :=
  "INSTRUCTIONS:\n- Provide concise, data-driven answers with specific numbers"

/-- The fallback ("original workflow") body of `chat`: one consolidated
prompt, exactly one `complete` call, then visualization merge and
JSON-vs-text shaping.  `k` is the index of the next LLM outcome.  The
error side is the exception `complete` may raise, to be caught by `chat`. -/
def fallbackChat (env : Env) (message : String)
    (context : List (String × String)) (k : Nat) :
    Except String Response × Trace :=
  let contextStr :=
    String.intercalate "\n"
      (((context.reverse.take 5).reverse).map
        (fun m => m.1 ++ ": " ++ m.2))
  let fullPrompt :=
    env.systemAdvisor ++ "\n\n" ++
      (if env.dataAnalysis = "" then ""
       else "TRANSACTION DATA CONTEXT:\n" ++ env.dataAnalysis ++ "\n\n") ++
      "User Question: " ++ message ++ "\n\n" ++
      (if contextStr = "" then ""
       else "Recent conversation:\n" ++ contextStr ++ "\n\n") ++
      chatInstructions
  let _ := fullPrompt   -- feeds the external LLM only
  let t : Trace := ⟨0, false, false, false, false, 1⟩
  match llmAt env k with
  | .error e => (Except.error e, t)
  | .ok response =>
      let rd0 : Response :=
        { answer := .str response, status := "success", rtype := "text" }
      let rd1 :=
        if env.visualizations.truthy then
          { rd0 with visualizations := some env.visualizations,
                     rtype := "visualization" }
        else rd0
      let rd2 :=
        match validateJsonResponse response with
        | some (JValue.obj o) =>
            { rd1 with answer := (JValue.obj o).getD "answer" (.str response),
                       rtype := "json", data := some (.obj o) }
        | _ => rd1
      (Except.ok rd2, t)

/-- The try-body of `EnhancedOrchestrator.chat`: the VectorDB workflow is
attempted only when `use_vectordb` holds (it never does — see
`initUseVectordb`), then the fallback path runs. -/
def chatTry (env : Env) (message : String)
    (context : List (String × String)) : Except String Response × Trace :=
  if initUseVectordb then
    match processWithVectordbWorkflow env message context with
    | (some r, t) => (Except.ok r, t)
    | (none, t) =>
        let fb := fallbackChat env message context
          (t.parseCalls + t.singleCompletions)
        (fb.1, ⟨t.parseCalls, t.strategyRan, t.riskRan, t.implementationRan,
                t.outputFormatRan, t.singleCompletions + fb.2.singleCompletions⟩)
  else fallbackChat env message context 0

/-- The uniform error envelope of `chat`'s top-level handler. -/
def apologyEnvelope (e : String) : Response :=
  { answer := .str ("I apologize, but I encountered an error: " ++ e),
    status := "error",
    rtype := "error" }

/-- `EnhancedOrchestrator.chat`: the try-body's result, with any uncaught
exception converted to the uniform error envelope. -/
def chat (env : Env) (message : String)
    (context : List (String × String)) : Response × Trace :=
  match chatTry env message context with
  | (Except.ok r, t) => (r, t)
  | (Except.error e, t) => (apologyEnvelope e, t)

/-! ## Concrete fixtures used by the theorems below -/

/-- The CSV of the worked example: one March-2024 Groceries row of 500 and
one Rent row of 15000. -/
def exampleCsv : FileData :=
  [["date", "amount", "category"],
   ["2024-03-05", "500", "Groceries"],
   ["2024-03-10", "15000", "Rent"]]

/-- A filesystem containing only the example CSV. -/
def exampleFs : String → Option FileData :=
  fun p => if p = "data/transactions.csv" then some exampleCsv else none

/-- A strategy recommendation as the Strategy stage emits it. -/
def stratRecA : JValue :=
  .obj [("category", .str "Equity"), ("allocation_percentage", .num 60),
        ("rationale", .str "growth")]

/-- A risk-adjusted recommendation as the Risk stage emits it. -/
def adjRecB : JValue :=
  .obj [("category", .str "Equity"), ("original_allocation", .num 60),
        ("adjusted_allocation", .num 40), ("reason", .str "cap risk")]

/-- A concrete strategy dict. -/
def strategyEx : JValue :=
  .obj [("strategy_summary", .str "balanced growth"),
        ("recommendations", .arr [stratRecA])]

/-- A concrete risk assessment carrying a non-empty
`adjusted_recommendations` list. -/
def riskEx : JValue :=
  .obj [("risk_score", .num 6),
        ("adjusted_recommendations", .arr [adjRecB])]

/-- A retrieved knowledge chunk. -/
def chunkEx : JValue :=
  .obj [("content", .str "SIP basics"),
        ("metadata", .obj [("title", .str "Investing Guide")])]

/-- A neutral environment with no oracle outcomes. -/
def baseEnv : Env :=
  { llm := []
    retrieval := []
    dataAnalysis := ""
    visualizations := .obj []
    transactionSummary := none
    financialAnalysis := none
    riskProfile := .obj [("risk_tolerance", .str "moderate")]
    implementationData := .obj []
    implementationAnswer := ""
    systemAdvisor := "SYS" }

/-- An environment in which the parsed intent is an investment query and
retrieval returns a chunk. -/
def envC1 : Env :=
  { baseEnv with
    llm := [Except.ok
      "\x7b\"query_type\": \"investment_advice\", \"requires_knowledge\": true\x7d"]
    retrieval := [chunkEx] }

/-- The intent `envC1`'s first LLM outcome parses to. -/
def intentInvest : JValue :=
  .obj [("query_type", .str "investment_advice"),
        ("requires_knowledge", .bool true)]

/-- An environment whose single LLM call raises. -/
def envC9 : Env := { baseEnv with llm := [Except.error "HTTP 500"] }

/-- Merchant-table fixture whose spends sum to zero. -/
def mHdrs : List String := ["date", "amount", "merchant"]

/-- Rows for the zero-total merchant fixture. -/
def mRows : List (List String) :=
  [["2024-01-01", "0", "A"], ["2024-01-02", "0", "B"]]

/-! ## Claim theorems -/

/-- C5: for an input whose lowercased, stripped form is one of the fixed
greeting strings or is shorter than 4 characters, `parse_query` returns
the fixed greeting intent (intent "greeting", all requires-flags false,
empty keywords) and issues zero LLM calls. -/
theorem C5_greeting_fast_path (llmResult : Except String String)
    (userQuery : String) (context : List (String × String))
    (h : greetings.contains (pyStrip (pyLower userQuery)) = true ∨
      (pyStrip (pyLower userQuery)).length < 4) :
    parseQuery llmResult userQuery context = (Except.ok greetingIntent, 0) ∧
    greetingIntent.get "intent" = some (.str "greeting") ∧
    greetingIntent.get "requires_knowledge" = some (.bool false) ∧
    greetingIntent.get "requires_transaction_data" = some (.bool false) ∧
    greetingIntent.get "requires_market_data" = some (.bool false) ∧
    greetingIntent.get "keywords" = some (.arr []) := by
  refine ⟨?_, rfl, rfl, rfl, rfl, rfl⟩
  unfold parseQuery
  rw [if_pos h]

/-- C5 witness: the fast path at the concrete input "Hello", with a junk
LLM outcome that is never consulted. -/
theorem C5_greeting_fast_path_witness :
    parseQuery (Except.ok "junk") "Hello" [] = (Except.ok greetingIntent, 0) :=
  (C5_greeting_fast_path (Except.ok "junk") "Hello" [] (by decide)).1

/-- C3: `parse_query` is claimed never to raise, but when the LLM call
fails on a message in the `market` keyword branch, `_fallback_parse`
reads the never-assigned local `requires_transaction_data` and raises
`UnboundLocalError`, which escapes `parse_query` (the fallback runs inside
the `except` handler, outside any try). -/
theorem C3_parse_query_raises_unbound_local :
    parseQuery (Except.error "requests.exceptions.ConnectionError")
      "market price today" [] =
    (Except.error
      "UnboundLocalError: local variable referenced before assignment", 1) :=
  rfl

/-- C6: on the example CSV, `category_stats(year=2024, month=3)` returns
items sorted descending by spend: Rent 15000.0 first, Groceries 500.0
second. -/
theorem C6_category_stats_example :
    categoryStats (some "data/transactions.csv") exampleFs
      (some 2024) (some 3) =
    Except.ok (.obj
      [("year", .num 2024), ("month", .num 3),
       ("items", .arr
         [.obj [("category", .str "Rent"), ("spent", .num 15000)],
          .obj [("category", .str "Groceries"), ("spent", .num 500)]])]) :=
  rfl

/-- C2 counterexample: the claim fails on the code.  `time_coverage` on an
absent file raises a `TypeError` (its `path` resolves to `None` and it has
no `if not path` guard), and an existing-but-empty CSV makes `total_spend`
raise `pandas.errors.EmptyDataError`; neither returns a result object with
a note field. -/
theorem C2_counterexample :
    timeCoverage none (fun _ => none) =
      Except.error
        "TypeError: stat: path should be string, bytes, os.PathLike or integer, not NoneType" ∧
    totalSpend (some "data/transactions.csv") (fun _ => some []) none none =
      Except.error "EmptyDataError: No columns to parse from file" :=
  ⟨rfl, rfl⟩

/-- C2 amended: the five accessors `total_spend`, `monthly_spend`,
`daily_spend`, `category_stats` and `merchant_stats` return a result
object with an explanatory note, without raising, when the CSV path
resolves to nothing and when the required columns are missing from a
non-empty file; but an existing-but-empty file makes all six raise
`EmptyDataError`, and `time_coverage` raises a `TypeError` on an absent
file (and its no-date-column result has no note field). -/
theorem C2_aggregate_degradation :
    (∀ (fs : String → Option FileData) (y m : Option ℤ) (k : Nat),
      totalSpend none fs y m =
        Except.ok (.obj [("total", .num 0),
                         ("notes", .str "No data available")]) ∧
      monthlySpend none fs y =
        Except.ok (.obj [("items", .arr []),
                         ("notes", .str "No data available")]) ∧
      dailySpend none fs y m =
        Except.ok (.obj [("items", .arr []),
                         ("notes", .str "No data available")]) ∧
      categoryStats none fs y m =
        Except.ok (.obj [("items", .arr []),
                         ("notes", .str "No data available")]) ∧
      merchantStats none fs y m k =
        Except.ok (.obj [("items", .arr []),
                         ("notes", .str "No data available")])) ∧
    (∀ (p : String) (fs : String → Option FileData) (y m : Option ℤ)
        (k : Nat) (h : List String) (t : List (List String)),
      fs p = some (h :: t) →
      (detectAmountCol h = none →
        totalSpend (some p) fs y m =
          Except.ok (.obj [("total", .num 0),
                           ("notes", .str "amount column not found")])) ∧
      (detectDateCol h = none ∨ detectAmountCol h = none →
        monthlySpend (some p) fs y =
          Except.ok (.obj [("items", .arr []),
                           ("notes", .str "date/amount columns not found")])) ∧
      (detectDateCol h = none ∨ detectAmountCol h = none →
        dailySpend (some p) fs y m =
          Except.ok (.obj [("items", .arr []),
                           ("notes", .str "date/amount columns not found")])) ∧
      (detectAmountCol h = none ∨ detectCategoryCol h = none →
        categoryStats (some p) fs y m =
          Except.ok (.obj
            [("items", .arr []),
             ("notes", .str "amount/category columns not found")])) ∧
      (detectMerchantCol h = none ∨ detectAmountCol h = none →
        merchantStats (some p) fs y m k =
          Except.ok (.obj
            [("items", .arr []),
             ("notes", .str "merchant/amount columns not found")]))) ∧
    (∀ (p : String) (fs : String → Option FileData) (y m : Option ℤ)
        (k : Nat), fs p = some [] →
      totalSpend (some p) fs y m =
        Except.error "EmptyDataError: No columns to parse from file" ∧
      monthlySpend (some p) fs y =
        Except.error "EmptyDataError: No columns to parse from file" ∧
      dailySpend (some p) fs y m =
        Except.error "EmptyDataError: No columns to parse from file" ∧
      categoryStats (some p) fs y m =
        Except.error "EmptyDataError: No columns to parse from file" ∧
      merchantStats (some p) fs y m k =
        Except.error "EmptyDataError: No columns to parse from file" ∧
      timeCoverage (some p) fs =
        Except.error "EmptyDataError: No columns to parse from file") ∧
    (∀ fs : String → Option FileData,
      timeCoverage none fs =
        Except.error
          "TypeError: stat: path should be string, bytes, os.PathLike or integer, not NoneType") := by
  refine ⟨fun fs y m k => ⟨rfl, rfl, rfl, rfl, rfl⟩, ?_, ?_, fun fs => rfl⟩
  · intro p fs y m k h t hfs
    refine ⟨?_, ?_, ?_, ?_, ?_⟩
    · intro hA
      simp only [totalSpend, hfs, readCsv, hA]
    · intro hDA
      rcases hDa : detectDateCol h with _ | dc <;>
        rcases hAm : detectAmountCol h with _ | ac <;>
          simp only [monthlySpend, hfs, readCsv, hDa, hAm] <;> simp_all
    · intro hDA
      rcases hDa : detectDateCol h with _ | dc <;>
        rcases hAm : detectAmountCol h with _ | ac <;>
          simp only [dailySpend, hfs, readCsv, hDa, hAm] <;> simp_all
    · intro hDA
      rcases hAm : detectAmountCol h with _ | ac <;>
        rcases hCa : detectCategoryCol h with _ | cc <;>
          simp only [categoryStats, hfs, readCsv, hAm, hCa] <;> simp_all
    · intro hDA
      rcases hMe : detectMerchantCol h with _ | mc <;>
        rcases hAm : detectAmountCol h with _ | ac <;>
          simp only [merchantStats, hfs, readCsv, hMe, hAm] <;> simp_all
  · intro p fs y m k hfs
    refine ⟨?_, ?_, ?_, ?_, ?_, ?_⟩ <;>
      simp only [totalSpend, monthlySpend, dailySpend, categoryStats,
        merchantStats, timeCoverage, hfs, readCsv]

/-- C2 witness: the amended note-field behavior at a concrete one-column
file with no amount column. -/
theorem C2_aggregate_degradation_witness :
    totalSpend (some "p") (fun _ => some [["x"]]) none none =
      Except.ok (.obj [("total", .num 0),
                       ("notes", .str "amount column not found")]) :=
  (C2_aggregate_degradation.2.1 "p" (fun _ => some [["x"]]) none none 0
    ["x"] [] rfl).1 rfl

/-- C7 counterexample: the claim quantifies over every LLM response that
is not valid JSON, but a non-JSON response containing an embedded
parseable brace-delimited object makes `generate_strategy` return that
parsed object, not the documented static fallback (the result has no
`recommendations` key at all, let alone an empty list). -/
theorem C7_counterexample :
    jsonLoads "x \x7b\"a\": 1\x7d y" = none ∧
    generateStrategy (Except.ok "x \x7b\"a\": 1\x7d y") =
      JValue.obj [("a", .num 1)] ∧
    (generateStrategy (Except.ok "x \x7b\"a\": 1\x7d y")).get
      "recommendations" = none :=
  ⟨rfl, rfl, rfl⟩

/-- C7 amended: whenever the brace-regex extraction finds no match,
whenever the matched substring fails to parse as JSON, and whenever the
LLM call raises, the Strategy and Risk stages return their static
fallback objects — whose documented defaults are recommendations = [],
action_items = [], time_horizon = "medium" for Strategy and
risk_score = 5, adjusted_recommendations = [] for Risk — and never
raise.  (A not-valid-JSON response with an embedded parseable object
instead returns that object, per the counterexample.) -/
theorem C7_fallback_defaults :
    (∀ resp : String, extractJsonMatch resp = none →
      generateStrategy (Except.ok resp) = strategyNoMatchFallback resp ∧
      assessRisk (Except.ok resp) = riskNoMatchFallback) ∧
    (∀ (resp m : String), extractJsonMatch resp = some m →
      jsonLoads m = none →
      generateStrategy (Except.ok resp) =
        strategyErrorFallback "Expecting value" ∧
      assessRisk (Except.ok resp) = riskErrorFallback "Expecting value") ∧
    (∀ e : String,
      generateStrategy (Except.error e) = strategyErrorFallback e ∧
      assessRisk (Except.error e) = riskErrorFallback e) ∧
    (∀ resp : String,
      (strategyNoMatchFallback resp).get "recommendations" =
        some (.arr []) ∧
      (strategyNoMatchFallback resp).get "action_items" = some (.arr []) ∧
      (strategyNoMatchFallback resp).get "time_horizon" =
        some (.str "medium")) ∧
    (∀ e : String,
      (strategyErrorFallback e).get "recommendations" = some (.arr []) ∧
      (strategyErrorFallback e).get "action_items" = some (.arr []) ∧
      (strategyErrorFallback e).get "time_horizon" = some (.str "medium")) ∧
    (riskNoMatchFallback.get "risk_score" = some (.num 5) ∧
      riskNoMatchFallback.get "adjusted_recommendations" = some (.arr [])) ∧
    (∀ e : String,
      (riskErrorFallback e).get "risk_score" = some (.num 5) ∧
      (riskErrorFallback e).get "adjusted_recommendations" =
        some (.arr [])) := by
  refine ⟨?_, ?_, fun e => ⟨rfl, rfl⟩, fun resp => ⟨rfl, rfl, rfl⟩,
    fun e => ⟨rfl, rfl, rfl⟩, ⟨rfl, rfl⟩, fun e => ⟨rfl, rfl⟩⟩
  · intro resp hx
    constructor
    · simp only [generateStrategy, hx]
    · simp only [assessRisk, hx]
  · intro resp m hx hl
    constructor
    · simp only [generateStrategy, hx, hl]
    · simp only [assessRisk, hx, hl]

/-- C7 witness: the fallback defaults at a concrete brace-free response. -/
theorem C7_fallback_defaults_witness :
    generateStrategy (Except.ok "no structured output") =
      strategyNoMatchFallback "no structured output" ∧
    assessRisk (Except.ok "no structured output") = riskNoMatchFallback :=
  C7_fallback_defaults.1 "no structured output" rfl

/-- C4: whenever the Risk assessment carries a non-empty
`adjusted_recommendations` list, the Output stage's recommendation
selection yields exactly that list, and the rendered bullet block of
`format_response` is built from it (take 5), not from the Strategy
stage's own recommendations. -/
theorem C4_risk_override (strategy riskAssessment : JValue)
    (l : List JValue)
    (h : riskAssessment.get "adjusted_recommendations" = some (.arr l))
    (hne : l ≠ []) :
    chosenRecs strategy riskAssessment = .arr l ∧
    recBlock strategy riskAssessment =
      ((l.take 5).mapM renderRec).map
        (fun lines => "\n**Recommended Allocation:**" :: lines) := by
  have htr : (JValue.arr l).truthy = true := by
    cases l with
    | nil => exact absurd rfl hne
    | cons a as => rfl
  have hc : chosenRecs strategy riskAssessment = .arr l := by
    simp only [chosenRecs, JValue.getOr, h, htr, if_true]
  refine ⟨hc, ?_⟩
  simp only [recBlock, hc, htr, if_true, pySlice]
  cases hm : (l.take 5).mapM renderRec with
  | ok lines => simp [hm, Except.map]
  | error e => simp [hm, Except.map]

/-- C4 witness: the override at a concrete strategy/risk pair. -/
theorem C4_risk_override_witness :
    chosenRecs strategyEx riskEx = .arr [adjRecB] ∧
    recBlock strategyEx riskEx =
      (([adjRecB].take 5).mapM renderRec).map
        (fun lines => "\n**Recommended Allocation:**" :: lines) :=
  C4_risk_override strategyEx riskEx [adjRecB] rfl
    (List.cons_ne_nil adjRecB [])

/-- C9: `chat` never propagates an exception: when its try-body succeeds
the result is returned as is, and when it raises the exception is
converted into the uniform
`{answer: "I apologize, but I encountered an error: <message>",
status: "error"}` envelope — never a raw stack trace. -/
theorem C9_chat_error_envelope (env : Env) (message : String)
    (context : List (String × String)) :
    (∀ r : Response, (chatTry env message context).1 = Except.ok r →
      chat env message context = (r, (chatTry env message context).2)) ∧
    (∀ e : String, (chatTry env message context).1 = Except.error e →
      chat env message context =
        (apologyEnvelope e, (chatTry env message context).2)) ∧
    (∀ e : String,
      (apologyEnvelope e).answer =
        .str ("I apologize, but I encountered an error: " ++ e) ∧
      (apologyEnvelope e).status = "error") := by
  refine ⟨?_, ?_, fun e => ⟨rfl, rfl⟩⟩
  · intro r hr
    unfold chat
    rcases hct : chatTry env message context with ⟨res, t⟩
    rw [hct] at hr
    simp only at hr
    rw [hr]
  · intro e he
    unfold chat
    rcases hct : chatTry env message context with ⟨res, t⟩
    rw [hct] at he
    simp only at he
    rw [he]

/-- C9 witness: the concrete envelope when the single LLM call raises. -/
theorem C9_chat_error_envelope_witness :
    chat envC9 "tell me about my spending" [] =
      (apologyEnvelope "HTTP 500", (chatTry envC9 "tell me about my spending" []).2) :=
  (C9_chat_error_envelope envC9 "tell me about my spending" []).2.1
    "HTTP 500" rfl

/-- Helper: inserting a mapped element into a mapped sorted list commutes
with mapping, when the comparison is preserved by the map. -/
theorem insInsert_map {α β : Type} (f : α → β) (le1 : α → α → Bool)
    (le2 : β → β → Bool) (hcomm : ∀ a b, le2 (f a) (f b) = le1 a b)
    (x : α) (l : List α) :
    insSortBy.insInsert le2 (f x) (l.map f) =
      (insSortBy.insInsert le1 x l).map f := by
  induction l with
  | nil => rfl
  | cons y ys ih =>
      simp only [List.map, insSortBy.insInsert, hcomm]
      by_cases hxy : le1 x y = true
      · rw [if_pos hxy, if_pos hxy]
        rfl
      · rw [if_neg hxy, if_neg hxy]
        simp only [List.map, ih]

/-- Helper: insertion sort commutes with mapping when the comparison is
preserved by the map. -/
theorem insSortBy_map {α β : Type} (f : α → β) (le1 : α → α → Bool)
    (le2 : β → β → Bool) (hcomm : ∀ a b, le2 (f a) (f b) = le1 a b)
    (l : List α) :
    insSortBy le2 (l.map f) = (insSortBy le1 l).map f := by
  induction l with
  | nil => rfl
  | cons x xs ih =>
      simp only [List.map, insSortBy, ih]
      exact insInsert_map f le1 le2 hcomm x (insSortBy le1 xs)

/-- C10: in `top_merchants`, the divisor is the summed spend with 1.0
substituted exactly when that sum is 0, so it is never zero; and every
emitted share is that merchant's grouped spend divided by the
(possibly substituted) divisor, rounded to 4 decimal places. -/
theorem C10_top_merchants_share_safety (headers : List String)
    (rows : List (List String)) (mcol amtCol : String) (n : Nat) :
    merchDivisor (merchGroupsD headers rows mcol amtCol) ≠ 0 ∧
    (merchTotal (merchGroupsD headers rows mcol amtCol) = 0 →
      merchDivisor (merchGroupsD headers rows mcol amtCol) = 1) ∧
    (merchTotal (merchGroupsD headers rows mcol amtCol) ≠ 0 →
      merchDivisor (merchGroupsD headers rows mcol amtCol) =
        merchTotal (merchGroupsD headers rows mcol amtCol)) ∧
    topMerchantsItems headers rows mcol amtCol n =
      ((insSortBy (fun a b => decide (b.2 ≤ a.2))
          (merchGroupsD headers rows mcol amtCol)).take
        (if n = 0 then 10 else n)).map
        (fun kv => JValue.obj
          [("merchant", renderMerchKey kv.1),
           ("spent", .num (round2 kv.2)),
           ("share", .num (round4 (kv.2 /
             merchDivisor (merchGroupsD headers rows mcol amtCol))))]) := by
  refine ⟨?_, ?_, ?_, ?_⟩
  · unfold merchDivisor
    by_cases h : merchTotal (merchGroupsD headers rows mcol amtCol) = 0
    · rw [if_pos h]
      decide
    · rw [if_neg h]
      exact h
  · intro h
    unfold merchDivisor
    rw [if_pos h]
  · intro h
    unfold merchDivisor
    rw [if_neg h]
  · simp only [topMerchantsItems]
    rw [insSortBy_map
      (fun kv : Option String × MQ =>
        (kv.1, kv.2,
         round4 (kv.2 / merchDivisor (merchGroupsD headers rows mcol amtCol))))
      (fun a b => decide (b.2 ≤ a.2))
      (fun a b => decide (b.2.1 ≤ a.2.1))
      (fun a b => rfl)]
    rw [← List.map_take, List.map_map]
    rfl

/-- C10 witness: on the zero-total fixture the divisor is substituted
with 1. -/
theorem C10_top_merchants_share_safety_witness :
    merchDivisor (merchGroupsD mHdrs mRows "merchant" "amount") = 1 :=
  (C10_top_merchants_share_safety mHdrs mRows "merchant" "amount" 10).2.1 rfl

/-- C1 counterexample: in an environment whose parsed intent is
`investment_advice` and whose knowledge retrieval returns a non-empty
chunk list, `chat` still runs none of the Strategy/Risk/Output stages
and issues exactly one consolidated completion, because `__init__` set
`use_vectordb` to `False`. -/
theorem C1_counterexample :
    (parseQuery (llmAt envC1 0) "how should i invest" []).1 =
      Except.ok intentInvest ∧
    envC1.retrieval ≠ [] ∧
    (chat envC1 "how should i invest" []).2.strategyRan = false ∧
    (chat envC1 "how should i invest" []).2.riskRan = false ∧
    (chat envC1 "how should i invest" []).2.outputFormatRan = false ∧
    (chat envC1 "how should i invest" []).2.singleCompletions = 1 :=
  ⟨rfl, List.cons_ne_nil chunkEx [], rfl, rfl, rfl, rfl⟩

/-- C1 amended: because `__init__` fixes `use_vectordb = False`, `chat`
takes the consolidated-single-prompt path for every message (no
Strategy/Risk/Output stage, exactly one completion issued).  The
conditional pipeline the claim describes lives in
`_process_with_vectordb_workflow`, which `chat` never invokes: there, an
investment-type intent with non-empty knowledge chunks runs
Strategy → Risk → optional Implementation → Output, and every other
message issues exactly one consolidated completion. -/
theorem C1_pipeline_gating :
    (∀ (env : Env) (message : String) (context : List (String × String)),
      (chat env message context).2.strategyRan = false ∧
      (chat env message context).2.riskRan = false ∧
      (chat env message context).2.outputFormatRan = false ∧
      (chat env message context).2.parseCalls = 0 ∧
      (chat env message context).2.singleCompletions = 1) ∧
    (∀ (env : Env) (message : String) (context : List (String × String))
        (parsed : JValue),
      (parseQuery (llmAt env 0) message context).1 = Except.ok parsed →
      isInvestmentType (parsed.getD "query_type" (.str "")) = true →
      (parsed.getD "requires_knowledge" (.bool false)).truthy = true →
      env.retrieval ≠ [] →
      (processWithVectordbWorkflow env message context).2.strategyRan = true ∧
      (processWithVectordbWorkflow env message context).2.riskRan = true ∧
      (processWithVectordbWorkflow env message context).2.outputFormatRan =
        true ∧
      (processWithVectordbWorkflow env message context).2.singleCompletions =
        0) ∧
    (∀ (env : Env) (message : String) (context : List (String × String))
        (parsed : JValue),
      (parseQuery (llmAt env 0) message context).1 = Except.ok parsed →
      (isInvestmentType (parsed.getD "query_type" (.str "")) = false ∨
        (parsed.getD "requires_knowledge" (.bool false)).truthy = false ∨
        env.retrieval = []) →
      (processWithVectordbWorkflow env message context).2.strategyRan =
        false ∧
      (processWithVectordbWorkflow env message context).2.riskRan = false ∧
      (processWithVectordbWorkflow env message context).2.singleCompletions =
        1) := by
  refine ⟨?_, ?_, ?_⟩
  · intro env message context
    unfold chat chatTry initUseVectordb
    simp only [Bool.false_eq_true, if_false, fallbackChat]
    rcases llmAt env 0 with e | r
    · exact ⟨rfl, rfl, rfl, rfl, rfl⟩
    · rcases validateJsonResponse r with _ | v
      · exact ⟨rfl, rfl, rfl, rfl, rfl⟩
      · rcases v <;> exact ⟨rfl, rfl, rfl, rfl, rfl⟩
  · intro env message context parsed hp hq hk hr
    unfold processWithVectordbWorkflow
    rw [show parseQuery (llmAt env 0) message context =
      ((parseQuery (llmAt env 0) message context).1,
       (parseQuery (llmAt env 0) message context).2) from rfl, hp]
    simp only [hq, hk, if_true]
    have hke : env.retrieval.isEmpty = false := by
      rcases hrv : env.retrieval with _ | ⟨c, cs⟩
      · exact absurd hrv hr
      · rfl
    simp only [hke, Bool.not_false, and_true, if_true]
    rcases hF : formatResponse (generateStrategy
        (llmAt env (parseQuery (llmAt env 0) message context).2))
        (assessRisk (llmAt env ((parseQuery (llmAt env 0) message context).2 + 1)))
        (if (parsed.getD "requires_transaction_data" (.bool false)).truthy
          then env.transactionSummary else none)
        (some env.retrieval) with e | r0 <;>
      simp only [hF] <;>
        exact ⟨by trivial, by trivial, by trivial, by trivial⟩
  · intro env message context parsed hp hcond
    unfold processWithVectordbWorkflow
    rw [show parseQuery (llmAt env 0) message context =
      ((parseQuery (llmAt env 0) message context).1,
       (parseQuery (llmAt env 0) message context).2) from rfl, hp]
    simp only []
    have hgate :
        ¬(isInvestmentType (parsed.getD "query_type" (.str "")) = true ∧
          ¬(if (parsed.getD "requires_knowledge" (.bool false)).truthy
              then env.retrieval else []).isEmpty = true) := by
      rcases hcond with hc | hc | hc
      · intro hand
        rw [hc] at hand
        exact Bool.false_ne_true hand.1
      · intro hand
        rw [hc] at hand
        exact hand.2 rfl
      · intro hand
        apply hand.2
        rcases htr : (parsed.getD "requires_knowledge" (.bool false)).truthy <;>
          simp [htr, hc]
    rw [if_neg hgate]
    rcases llmAt env (parseQuery (llmAt env 0) message context).2 with e | r
    · exact ⟨rfl, rfl, rfl⟩
    · exact ⟨rfl, rfl, rfl⟩

/-- C1 witness: the workflow-side gating at the concrete investment
environment. -/
theorem C1_pipeline_gating_witness :
    (processWithVectordbWorkflow envC1 "how should i invest" []).2.strategyRan =
      true ∧
    (processWithVectordbWorkflow envC1 "how should i invest" []).2.riskRan =
      true ∧
    (processWithVectordbWorkflow envC1 "how should i invest"
      []).2.outputFormatRan = true ∧
    (processWithVectordbWorkflow envC1 "how should i invest"
      []).2.singleCompletions = 0 :=
  C1_pipeline_gating.2.1 envC1 "how should i invest" [] intentInvest rfl rfl
    rfl (List.cons_ne_nil chunkEx [])

/-- Helper: full characterization of the retry loop — attempt count
bounds, the backoff schedule, transport-only retries, and the final
outcome. -/
theorem runAttempts_spec (b : MQ) (attempts : Nat → AttemptOutcome) :
    ∀ (r k : Nat),
      (1 ≤ (runAttempts b attempts k r).2.1 ∧
        (runAttempts b attempts k r).2.1 ≤ r + 1) ∧
      (runAttempts b attempts k r).2.2 =
        (List.range ((runAttempts b attempts k r).2.1 - 1)).map
          (fun i => b * MQ.ofN (k + i + 1)) ∧
      (∀ j, j < (runAttempts b attempts k r).2.1 - 1 →
        ∃ m, attempts (k + j) = AttemptOutcome.transport m) ∧
      ((∃ st body,
          attempts (k + ((runAttempts b attempts k r).2.1 - 1)) =
            AttemptOutcome.response st body ∧
          (runAttempts b attempts k r).1 = Except.ok (st, body)) ∨
        (∃ m,
          attempts (k + ((runAttempts b attempts k r).2.1 - 1)) =
            AttemptOutcome.transport m ∧
          (runAttempts b attempts k r).2.1 = r + 1 ∧
          (runAttempts b attempts k r).1 =
            Except.error ("LLM request failed: " ++ m))) := by
  intro r
  induction r with
  | zero =>
      intro k
      rcases ha : attempts k with m | ⟨st, body⟩
      · have hr : runAttempts b attempts k 0 =
            (Except.error ("LLM request failed: " ++ m), 1, []) := by
          unfold runAttempts
          rw [ha]
        rw [hr]
        dsimp only
        refine ⟨⟨Nat.le_refl 1, Nat.le_refl 1⟩, by simp, by omega, ?_⟩
        exact Or.inr ⟨m, by simpa using ha, rfl, rfl⟩
      · have hr : runAttempts b attempts k 0 =
            (Except.ok (st, body), 1, []) := by
          unfold runAttempts
          rw [ha]
        rw [hr]
        dsimp only
        refine ⟨⟨Nat.le_refl 1, Nat.le_refl 1⟩, by simp, by omega, ?_⟩
        exact Or.inl ⟨st, body, by simpa using ha, rfl⟩
  | succ n ih =>
      intro k
      rcases ha : attempts k with m | ⟨st, body⟩
      · have hr : runAttempts b attempts k (n + 1) =
            ((runAttempts b attempts (k + 1) n).1,
             (runAttempts b attempts (k + 1) n).2.1 + 1,
             b * MQ.ofN (k + 1) :: (runAttempts b attempts (k + 1) n).2.2) := by
          conv =>
            lhs
            unfold runAttempts
          rw [ha]
        rw [hr]
        dsimp only
        rcases ih (k + 1) with ⟨⟨hge, hle⟩, hboff, htrans, hfin⟩
        refine ⟨⟨by omega, by omega⟩, ?_, ?_, ?_⟩
        · have hsucc :
              (runAttempts b attempts (k + 1) n).2.1 + 1 - 1 =
                ((runAttempts b attempts (k + 1) n).2.1 - 1) + 1 := by
            omega
          rw [hsucc, List.range_succ_eq_map, List.map_cons, List.map_map]
          congr 1
          rw [hboff]
          apply List.map_congr_left
          intro i _
          simp only [Function.comp]
          congr 2
          omega
        · intro j hj
          rcases j with _ | jp
          · exact ⟨m, by simpa using ha⟩
          · have hjp : jp < (runAttempts b attempts (k + 1) n).2.1 - 1 := by
              omega
            rcases htrans jp hjp with ⟨m2, hm2⟩
            refine ⟨m2, ?_⟩
            rw [show k + (jp + 1) = k + 1 + jp by omega]
            exact hm2
        · have hidx :
              k + ((runAttempts b attempts (k + 1) n).2.1 + 1 - 1) =
                k + 1 + ((runAttempts b attempts (k + 1) n).2.1 - 1) := by
            omega
          rw [hidx]
          rcases hfin with ⟨st, body, hresp, hres⟩ | ⟨m2, htr, hmade, hres⟩
          · exact Or.inl ⟨st, body, hresp, hres⟩
          · exact Or.inr ⟨m2, htr, by omega, hres⟩
      · have hr : runAttempts b attempts k (n + 1) =
            (Except.ok (st, body), 1, []) := by
          unfold runAttempts
          rw [ha]
        rw [hr]
        dsimp only
        refine ⟨⟨Nat.le_refl 1, by omega⟩, by simp, by omega, ?_⟩
        exact Or.inl ⟨st, body, by simpa using ha, rfl⟩

/-- The attempt oracle of the C8 counterexample: an immediate 200
response whose body is valid JSON but not an object. -/
def cexAttempts : Nat → AttemptOutcome := fun _ =>
  AttemptOutcome.response 200 "[1, 2]"

/-- C8 counterexample: the claim promises a typed runtime error carrying
the provider's raw status/body on every unrecognized response envelope,
but a valid-JSON body that is not an object (here a top-level array)
makes `complete` raise an `AttributeError` from `js.get`, which carries
neither status nor body. -/
theorem C8_counterexample :
    (jsonLoads "[1, 2]").isSome = true ∧
    llmComplete 2 mqHalf cexAttempts =
      (Except.error
        (.attributeError "'list' object has no attribute 'get'"), 1, []) :=
  ⟨rfl, rfl⟩

/-- C8 amended: `complete` makes between 1 and retries+1 POST attempts,
sleeps the linearly increasing `backoff_seconds * (attempt + 1)` schedule,
retries only after transport exceptions (never after an HTTP response,
whatever its status), and at the final attempt raises the documented
RuntimeError carrying the raw status/body on a non-2xx status, a
non-JSON body, or an unrecognized JSON-object envelope.  (A valid-JSON
non-object body instead raises an `AttributeError` — see the
counterexample.) -/
theorem C8_retry_and_error_surface (retries : Nat) (b : MQ)
    (attempts : Nat → AttemptOutcome) :
    (1 ≤ (llmComplete retries b attempts).2.1 ∧
      (llmComplete retries b attempts).2.1 ≤ retries + 1) ∧
    (llmComplete retries b attempts).2.2 =
      (List.range ((llmComplete retries b attempts).2.1 - 1)).map
        (fun i => b * MQ.ofN (i + 1)) ∧
    (∀ j, j < (llmComplete retries b attempts).2.1 - 1 →
      ∃ m, attempts j = AttemptOutcome.transport m) ∧
    (∀ st body,
      attempts ((llmComplete retries b attempts).2.1 - 1) =
        AttemptOutcome.response st body →
      (¬(200 ≤ st ∧ st < 300) →
        (llmComplete retries b attempts).1 =
          Except.error (.runtimeError
            ("LLM HTTP " ++ toString st ++ ": " ++ takeChars 300 body))) ∧
      ((200 ≤ st ∧ st < 300) → jsonLoads body = none →
        (llmComplete retries b attempts).1 =
          Except.error (.runtimeError
            ("Non-JSON response from LLM: " ++ takeChars 300 body))) ∧
      (∀ js, (200 ≤ st ∧ st < 300) → jsonLoads body = some js →
        extractFreeText js = Except.ok none →
        (llmComplete retries b attempts).1 =
          Except.error (.runtimeError
            ("LLM error: status=" ++ pyStr (js.getD "status" .null) ++
              " error=" ++ pyStr (js.getOr "error" js))))) := by
  have hspec := runAttempts_spec b attempts retries 0
  rcases hspec with ⟨⟨hge, hle⟩, hboff, htrans, hfin⟩
  have hsnd : (llmComplete retries b attempts).2 =
      (runAttempts b attempts 0 retries).2 := rfl
  have hfst : (llmComplete retries b attempts).1 =
      llmFinish (runAttempts b attempts 0 retries).1 := rfl
  refine ⟨⟨?_, ?_⟩, ?_, ?_, ?_⟩
  · rw [hsnd]
    exact hge
  · rw [hsnd]
    exact hle
  · rw [hsnd, hboff]
    apply List.map_congr_left
    intro i _
    congr 2
    omega
  · intro j hj
    rw [hsnd] at hj
    rcases htrans j hj with ⟨m, hm⟩
    exact ⟨m, by simpa using hm⟩
  · intro st body hresp
    rw [hsnd] at hresp
    have hok : (runAttempts b attempts 0 retries).1 =
        Except.ok (st, body) := by
      rcases hfin with ⟨st2, body2, hresp2, hres2⟩ | ⟨m, htr, hmade, hres⟩
      · rw [Nat.zero_add] at hresp2
        rw [hresp] at hresp2
        rcases hresp2 with ⟨rfl, rfl⟩
        exact hres2
      · rw [Nat.zero_add] at htr
        rw [hresp] at htr
        exact absurd htr (by intro hcontra; cases hcontra)
    rw [hfst, hok]
    refine ⟨?_, ?_, ?_⟩
    · intro h2
      simp only [llmFinish, if_neg h2]
    · intro h2 hjson
      simp only [llmFinish, if_pos h2, hjson]
    · intro js h2 hjson hext
      simp only [llmFinish, if_pos h2, hjson, hext]

/-- C8 witness: a 404 final response surfaces the documented RuntimeError
with status and body after one attempt. -/
theorem C8_retry_and_error_surface_witness :
    (llmComplete 2 mqHalf (fun _ => AttemptOutcome.response 404 "oops")).1 =
      Except.error (.runtimeError "LLM HTTP 404: oops") :=
  ((C8_retry_and_error_surface 2 mqHalf
      (fun _ => AttemptOutcome.response 404 "oops")).2.2.2 404 "oops"
    rfl).1 (by decide)
